import Mathlib

/-!
stfu: the identity-spoofing launcher (`src/stfu.c`)

A shallow embedding of `main`, `create_fake_lib` and `cleanup` of `src/stfu.c`.

* C strings are `String`; `strcmp(a, b) == 0` is `a = b`.
* `argv` is a `List String` and `argc` is its length; `argv[i]` is `argv[i]?`, the
  answer `none` standing for an index at or beyond `argc`.
* An array obtained from `malloc` is a list of cells (`Slot`), each unwritten, NULL or a
  pointer to a string; a write outside the allocation and a read of an unwritten cell are
  failures (`none`, `Ending.fault`).
* The process is a `State` (real and effective uid, environment, the set of existing
  files, whether `cleanup` is registered with `atexit`, and the trace of the calls made so
  far).  What the operating system answers to a call is read from an oracle `Sys`.
* A run of `main` yields the final `State` and an `Ending`.

Outside the model: `set_locale` (the table row it selects is `Sys.t`), the body of
`show_help`, and the signal handlers. The compiler run of `create_fake_lib` is a fixed
command line: it is taken to touch no file but `/tmp/stfu_fake.so`, which exists after a
run that returns 0. The shell line of lines 547-549 holds the operand of `-H` / `--home`
unescaped, so what it does to the files is whatever the oracle `Sys.mkdir_files` says; a
child process cannot change the environment or the uids of `main`.
`setenv` and `unsetenv` are taken to succeed, as `main` never reads their result.
-/

namespace Stfu

/-! ## Strings -/

/-- The expression `s[0]` on a C string: the terminating NUL when the string is empty. -/
def char0 (s : String) : Char := s.data.headD (Char.ofNat 0)

/-- The test `strstr(haystack, needle) != NULL` on the characters of two C strings. -/
def strstr : List Char → List Char → Bool
  | [], needle => needle.isEmpty
  | c :: cs, needle => needle.isPrefixOf (c :: cs) || strstr cs needle

/-- The test `strstr(argv[arg_start], "firefox")` of lines 552 and 563. -/
def is_firefox (cmd : String) : Bool := strstr cmd.data "firefox".data

/-- The struct `translations_t` (lines 23-33). -/
structure translations_t where
  usage : String
  options : String
  examples : String
  home_desc : String
  sudo_desc : String
  help_desc : String
  error_root : String
  error_home_arg : String
  error_unknown : String
deriving DecidableEq, Repr

/-! ## Pointer arrays obtained from `malloc` -/

/-- One `char*` cell of an array obtained from `malloc`. -/
inductive Slot where
  | uninit
  | null
  | ptr (s : String)
deriving DecidableEq, Repr

/-- The call `malloc(n * sizeof(char*))` when it succeeds: `n` cells, none written yet. -/
def malloc (n : Nat) : List Slot := List.replicate n Slot.uninit

/-- The assignment `a[i] = v`; `none` when `i` is outside the allocation. -/
def store (a : List Slot) (i : Nat) (v : Slot) : Option (List Slot) :=
  if i < a.length then some (a.set i v) else none

/-- The argument vector `execvp` reads from a pointer array: the strings up to the first
NULL; `none` when a cell never written, or the end of the allocation, comes first. -/
def read_argv : List Slot → Option (List String)
  | [] => none
  | Slot.uninit :: _ => none
  | Slot.null :: _ => some []
  | Slot.ptr s :: rest => (read_argv rest).map (fun l => s :: l)

/-! ## Flag parsing (lines 467-490) -/

/-- How the `while` loop of lines 471-490 ends. -/
inductive Parsed where
  | help
  | home_arg_error
  | done (arg_start : Nat) (sudo_mode : Bool) (custom_home : Option String)
  | out_of_fuel
deriving DecidableEq, Repr

/-- The `while` loop of lines 471-490, from the loop state `arg_start`, `sudo_mode`,
`custom_home`; the first argument bounds the number of iterations. -/
def parse_loop (argv : List String) : Nat → Nat → Bool → Option String → Parsed
  | 0, _, _, _ => Parsed.out_of_fuel
  | fuel + 1, arg_start, sudo_mode, custom_home =>
    match argv[arg_start]? with
    | none => Parsed.done arg_start sudo_mode custom_home
    | some arg =>
      if char0 arg ≠ '-' then Parsed.done arg_start sudo_mode custom_home
      else if arg = "-h" ∨ arg = "--help" then Parsed.help
      else if arg = "-H" ∨ arg = "--home" then
        match argv[arg_start + 1]? with
        | none => Parsed.home_arg_error
        | some home => parse_loop argv fuel (arg_start + 2) sudo_mode (some home)
      else if arg = "-s" ∨ arg = "--sudo" then
        parse_loop argv fuel (arg_start + 1) true custom_home
      else Parsed.done (arg_start + 1) sudo_mode custom_home

/-- Lines 467-490: the loop entered with `arg_start = 1`, `sudo_mode = 0` and
`custom_home = NULL`. Every iteration that continues advances `arg_start`, so
`argc + 1` iterations are enough. -/
def parse_args (argv : List String) : Parsed :=
  parse_loop argv (argv.length + 1) 1 false none

/-! ## The argument list for the elevation helper (lines 505-520) -/

/-- The body of the loop of lines 510-514 at index `j`, on the array and the cursor `i`. -/
def copy_flag (argv : List String) (st : List Slot × Nat) (j : Nat) :
    Option (List Slot × Nat) :=
  match argv[j]? with
  | none => none
  | some x =>
    if x ≠ "-s" ∧ x ≠ "--sudo" then
      (store st.1 st.2 (Slot.ptr x)).map (fun a => (a, st.2 + 1))
    else some st

/-- The body of the loop of lines 517-519 at index `j`. -/
def copy_command (argv : List String) (st : List Slot × Nat) (j : Nat) :
    Option (List Slot × Nat) :=
  match argv[j]? with
  | none => none
  | some x => (store st.1 st.2 (Slot.ptr x)).map (fun a => (a, st.2 + 1))

/-- Lines 499-520 after a successful `malloc`: the array `sudo_args`. -/
def build_sudo_args (argv : List String) (arg_start : Nat) : Option (List Slot) :=
  match argv[0]? with
  | none => none
  | some argv0 =>
    (store (malloc (argv.length + 5)) 0 (Slot.ptr "sudo")).bind fun a =>
    (store a 1 (Slot.ptr argv0)).bind fun a =>
    ((List.range' 1 (arg_start - 1)).foldlM (copy_flag argv) (a, 2)).bind fun st =>
    ((List.range' arg_start (argv.length - arg_start)).foldlM (copy_command argv) st).bind
      fun st => store st.1 st.2 Slot.null

/-- The vector `execvp("sudo", sudo_args)` reads (line 522). -/
def sudo_args (argv : List String) (arg_start : Nat) : Option (List String) :=
  (build_sudo_args argv arg_start).bind read_argv

/-! ## The argument vector of a browser-family target (lines 564-575) -/

/-- The body of the loop of lines 572-574 at index `i`. -/
def copy_arg (argv : List String) (arg_start : Nat) (a : List Slot) (i : Nat) :
    Option (List Slot) :=
  match argv[i]? with
  | none => none
  | some x => store a (i - arg_start + 1) (Slot.ptr x)

/-- Lines 564-575 after a successful `malloc`: the array `new_argv`. -/
def build_new_argv (argv : List String) (arg_start : Nat) : Option (List Slot) :=
  match argv[arg_start]? with
  | none => none
  | some cmd =>
    (store (malloc (argv.length - arg_start + 2)) 0 (Slot.ptr cmd)).bind fun a =>
    (store a 1 (Slot.ptr "--no-sandbox")).bind fun a =>
    ((List.range' (arg_start + 1) (argv.length - (arg_start + 1))).foldlM
      (copy_arg argv arg_start) a).bind fun a =>
    store a (argv.length - arg_start + 1) Slot.null

/-! ## The process -/

/-- A call that `main` makes and that is visible from outside the process. -/
inductive Event where
  | puts (s : String)
  | show_help
  | setuid (uid : Nat)
  | open_trunc (path : String)
  | write (path : String) (count : Int)
  | system_gcc
  | system_mkdir (home : String)
  | atexit_cleanup
  | setenv (name value : String)
  | unsetenv (name : String)
  | access (path : String)
  | execvp (file : String) (args : List String)
  | unlink (path : String)
deriving DecidableEq, Repr

/-- How a run ends. -/
inductive Ending where
  | exited (status : Nat)
  | exited_now (status : Nat)
  | replaced (file : String) (args : List String)
  | fault
  | out_of_fuel
deriving DecidableEq, Repr

/-- The process and the part of the file system the program touches. `exited` is a return
from `main` (the functions registered with `atexit` have run), `exited_now` is `_exit`,
`replaced` is an `execvp` that succeeded, `fault` is an access outside an allocation. -/
structure State where
  uid : Nat
  euid : Nat
  env : List (String × String)
  files : List String
  cleanup_registered : Bool
  trace : List Event
deriving DecidableEq, Repr

/-- What the operating system answers to the calls of one run. `mkdir_files home files` is
the set of existing files when `system` returns from the shell line
`mkdir -p '<home>' 2>/dev/null`, run when the files were `files`. -/
structure Sys where
  t : translations_t
  setuid_ok : Bool
  malloc_ok : Bool
  open_ok : Bool
  written : Int
  gcc_status : Int
  mkdir_status : Int
  mkdir_files : String → List String → List String
  access_home_user : Int
  execvp_ok : String → List String → Bool

/-- Record a call in the trace. -/
def emit (e : Event) (s : State) : State := { s with trace := s.trace ++ [e] }

/-- The call `puts(msg)`. -/
def puts (msg : String) (s : State) : State := emit (Event.puts msg) s

/-- The call `show_help()` (lines 393-410): output only. -/
def show_help (s : State) : State := emit Event.show_help s

/-- The call `setenv(name, value, 1)`. -/
def setenv (name value : String) (s : State) : State :=
  emit (Event.setenv name value)
    { s with env := (name, value) :: s.env.filter (fun p => p.1 ≠ name) }

/-- The call `unsetenv(name)`. -/
def unsetenv (name : String) (s : State) : State :=
  emit (Event.unsetenv name) { s with env := s.env.filter (fun p => p.1 ≠ name) }

/-- The value `getenv(name)` would give in a state. -/
def getenv (name : String) (s : State) : Option String :=
  (s.env.find? (fun p => p.1 = name)).map (fun p => p.2)

/-- The call `unlink(path)`. -/
def unlink (path : String) (s : State) : State :=
  emit (Event.unlink path) { s with files := s.files.filter (fun f => f ≠ path) }

/-- The function `cleanup` (lines 452-455). -/
def cleanup (s : State) : State :=
  unlink "/tmp/stfu_fake.so" (unlink "/tmp/stfu_fake.c" s)

/-- A `return status;` from `main`: the functions registered with `atexit` run. -/
def return_main (status : Nat) (s : State) : State × Ending :=
  (if s.cleanup_registered then cleanup s else s, Ending.exited status)

/-- The call `atexit(cleanup)`. -/
def atexit_cleanup (s : State) : State :=
  emit Event.atexit_cleanup { s with cleanup_registered := true }

/-- A file comes into existence at `path`. -/
def create_file (path : String) (s : State) : State :=
  { s with files := if path ∈ s.files then s.files else path :: s.files }

/-- The array `fake_lib_code` of lines 415-427. -/
def fake_lib_code : String :=
  "#define _GNU_SOURCE\n" ++
  "#include <sys/types.h>\n#include <unistd.h>\n#include <pwd.h>\n" ++
  "#include <stdlib.h>\n#include <string.h>\n#include <dlfcn.h>\n" ++
  "uid_t getuid(void)\x7breturn 1000;\x7duid_t geteuid(void)\x7breturn 1000;\x7d" ++
  "gid_t getgid(void)\x7breturn 1000;\x7dgid_t getegid(void)\x7breturn 1000;\x7d" ++
  "struct passwd*getpwuid(uid_t u)\x7bstatic struct passwd p=\x7b\"user\",\"x\",1000,1000,\"Regular User\",\"/home/user\",\"/bin/bash\"\x7d;" ++
  "char*h=getenv(\"STFU_CUSTOM_HOME\");if(h)p.pw_dir=h;return&p;\x7d" ++
  "char*getlogin(void)\x7breturn\"user\";\x7d" ++
  "int access(const char*p,int m)\x7bstatic int(*r)(const char*,int)=0;" ++
  "if(!r)r=dlsym(RTLD_NEXT,\"access\");" ++
  "if(p&&strstr(p,\"/snap\")&&strstr(p,\"firefox\"))return-1;" ++
  "return r(p,m);\x7d"

/-- The function `create_fake_lib` (lines 413-449): the state it leaves, and `some` ending
when it terminates the process with `_exit(1)`. A compiler run that returns 0 is taken to
have produced `/tmp/stfu_fake.so`. -/
def create_fake_lib (sys : Sys) (s : State) : State × Option Ending :=
  let s := emit (Event.open_trunc "/tmp/stfu_fake.c") s
  if ¬ sys.open_ok then
    (puts sys.t.error_unknown s, some (Ending.exited_now 1))
  else
    let s := create_file "/tmp/stfu_fake.c" s
    let s := emit (Event.write "/tmp/stfu_fake.c" sys.written) s
    if sys.written ≠ (fake_lib_code.utf8ByteSize : Int) then
      (puts sys.t.error_unknown s, some (Ending.exited_now 1))
    else
      let s := emit Event.system_gcc s
      if sys.gcc_status ≠ 0 then
        (puts sys.t.error_unknown s, some (Ending.exited_now 1))
      else
        (create_file "/tmp/stfu_fake.so" s, none)

/-- The call `execvp(file, args)`: the state, and whether the process image was replaced. -/
def execvp (sys : Sys) (file : String) (args : List String) (s : State) : State × Bool :=
  (emit (Event.execvp file args) s, sys.execvp_ok file args)

/-! ## `main` -/

/-- Lines 498-525 of `main`: the re-exec through `sudo`. -/
def main_sudo (sys : Sys) (argv : List String) (arg_start : Nat) (s : State) :
    State × Ending :=
  if ¬ sys.malloc_ok then return_main 1 (puts sys.t.error_unknown s)
  else
    match sudo_args argv arg_start with
    | none => (s, Ending.fault)
    | some args =>
      match execvp sys "sudo" args s with
      | (s, true) => (s, Ending.replaced "sudo" args)
      | (s, false) => return_main 1 (puts sys.t.error_unknown s)

/-- Lines 547-549 of `main`: `system` on the line `mkdir -p '<home>' 2>/dev/null`, whose
result is ignored. The operand is pasted into the line as it is, so the line may do
anything to the files. -/
def system_mkdir (sys : Sys) (home : String) (s : State) : State :=
  emit (Event.system_mkdir home) { s with files := sys.mkdir_files home s.files }

/-- Lines 545-554 of `main`: the `HOME` logic. -/
def main_home (sys : Sys) (cmd : String) (custom_home : Option String) (s : State) : State :=
  match custom_home with
  | some home =>
    let s := system_mkdir sys home s
    let s := setenv "HOME" home s
    setenv "STFU_CUSTOM_HOME" home s
  | none =>
    if is_firefox cmd then
      let s := emit (Event.access "/home/user") s
      setenv "HOME" (if sys.access_home_user ≠ 0 then "/tmp" else "/home/user") s
    else s

/-- Lines 556-560 of `main`. -/
def main_unset (s : State) : State :=
  unsetenv "SUDO_COMMAND" (unsetenv "SUDO_GID" (unsetenv "SUDO_UID" (unsetenv "SUDO_USER" s)))

/-- Lines 562-586 of `main`: the launch of the target command. -/
def main_exec (sys : Sys) (argv : List String) (arg_start : Nat) (cmd : String) (s : State) :
    State × Ending :=
  if is_firefox cmd then
    if ¬ sys.malloc_ok then return_main 1 (puts sys.t.error_unknown s)
    else
      match build_new_argv argv arg_start with
      | none => (s, Ending.fault)
      | some new_argv =>
        let s := setenv "MOZ_DISABLE_CONTENT_SANDBOX" "1" s
        let s := setenv "MOZ_DISABLE_GMP_SANDBOX" "1" s
        match read_argv new_argv with
        | none => (s, Ending.fault)
        | some args =>
          match execvp sys cmd args s with
          | (s, true) => (s, Ending.replaced cmd args)
          | (s, false) => return_main 1 (puts sys.t.error_unknown s)
  else
    match execvp sys cmd (argv.drop arg_start) s with
    | (s, true) => (s, Ending.replaced cmd (argv.drop arg_start))
    | (s, false) => return_main 1 (puts sys.t.error_unknown s)

/-- Lines 540-586 of `main`: shim build, environment, launch. -/
def main_launch (sys : Sys) (argv : List String) (arg_start : Nat)
    (custom_home : Option String) (s : State) : State × Ending :=
  match create_fake_lib sys s with
  | (s, some e) => (s, e)
  | (s, none) =>
    let s := atexit_cleanup s
    let s := setenv "LD_PRELOAD" "/tmp/stfu_fake.so" s
    match argv[arg_start]? with
    | none => (s, Ending.fault)
    | some cmd =>
      let s := main_home sys cmd custom_home s
      let s := main_unset s
      main_exec sys argv arg_start cmd s

/-- Lines 527-538 of `main`, then the launch. -/
def main_root (sys : Sys) (argv : List String) (arg_start : Nat) (sudo_mode : Bool)
    (custom_home : Option String) (s : State) : State × Ending :=
  if sudo_mode = false ∧ s.uid ≠ 0 then
    if s.euid = 0 then
      let s := emit (Event.setuid 0) s
      if ¬ sys.setuid_ok then return_main 1 (puts sys.t.error_unknown s)
      else main_launch sys argv arg_start custom_home { s with uid := 0 }
    else return_main 1 (puts sys.t.error_root s)
  else main_launch sys argv arg_start custom_home s

/-- The function `main` (lines 458-587), after `set_locale` has chosen `sys.t`. -/
def main (sys : Sys) (argv : List String) (s : State) : State × Ending :=
  match parse_args argv with
  | Parsed.out_of_fuel => (s, Ending.out_of_fuel)
  | Parsed.help => return_main 0 (show_help s)
  | Parsed.home_arg_error => return_main 1 (puts sys.t.error_home_arg s)
  | Parsed.done arg_start sudo_mode custom_home =>
    if arg_start ≥ argv.length then return_main 0 (show_help s)
    else if sudo_mode = true ∧ s.uid ≠ 0 then main_sudo sys argv arg_start s
    else main_root sys argv arg_start sudo_mode custom_home s

/-! ## Vocabulary of the statements -/

/-- The process as the kernel starts it: nothing registered with `atexit`, no call made. -/
def State.start (uid euid : Nat) (env : List (String × String)) (files : List String) :
    State :=
  { uid := uid, euid := euid, env := env, files := files, cleanup_registered := false,
    trace := [] }

/-- The test of line 511 on one token. -/
def is_kept (x : String) : Bool := decide (x ≠ "-s" ∧ x ≠ "--sudo")

/-- An array of `cap` cells whose first cells point to the strings of `l`, the others not
yet written. -/
def arr (cap : Nat) (l : List String) : List Slot :=
  l.map Slot.ptr ++ List.replicate (cap - l.length) Slot.uninit

/-- The state `create_fake_lib` leaves when each of its three steps succeeds. -/
def shim_built (sys : Sys) (s : State) : State :=
  create_file "/tmp/stfu_fake.so" (emit Event.system_gcc
    (emit (Event.write "/tmp/stfu_fake.c" sys.written)
      (create_file "/tmp/stfu_fake.c" (emit (Event.open_trunc "/tmp/stfu_fake.c") s))))

/-- The state in which `main` reaches line 562, after a successful `create_fake_lib`. -/
def launch_ready (sys : Sys) (cmd : String) (custom_home : Option String) (s : State) :
    State :=
  main_unset (main_home sys cmd custom_home
    (setenv "LD_PRELOAD" "/tmp/stfu_fake.so" (atexit_cleanup (shim_built sys s))))

/-- A flag after which the loop of lines 471-490 goes on: `-s`, `--sudo`, or `-H` /
`--home` with its operand. -/
inductive Flag where
  | escalate (long : Bool)
  | home (long : Bool) (path : String)
deriving DecidableEq, Repr

/-- The tokens a flag takes on the command line. -/
def Flag.tokens : Flag → List String
  | Flag.escalate false => ["-s"]
  | Flag.escalate true => ["--sudo"]
  | Flag.home false path => ["-H", path]
  | Flag.home true path => ["--home", path]

/-- The tokens of a sequence of flags. -/
def flag_tokens : List Flag → List String
  | [] => []
  | f :: fs => f.tokens ++ flag_tokens fs

/-- Whether a sequence of flags holds `-s` or `--sudo`, given the value before it. -/
def flags_sudo : List Flag → Bool → Bool
  | [], sm => sm
  | Flag.escalate _ :: fs, _ => flags_sudo fs true
  | Flag.home _ _ :: fs, sm => flags_sudo fs sm

/-- The operand of the last `-H` / `--home` of a sequence of flags, given the value before
it. -/
def flags_home : List Flag → Option String → Option String
  | [], h => h
  | Flag.escalate _ :: fs, h => flags_home fs h
  | Flag.home _ path :: fs, _ => flags_home fs (some path)

/-- The six spellings the loop of lines 471-490 recognises. -/
def known_flags : List String := ["-h", "--help", "-H", "--home", "-s", "--sudo"]

/-- Whether a call writes the environment (`setenv` or `unsetenv`). -/
def is_env_write : Event → Bool
  | Event.setenv _ _ => true
  | Event.unsetenv _ => true
  | _ => false

/-- The row `translations[0]` (lines 38-41). -/
def english : translations_t :=
  { usage := "Usage: stfu [options] <command> [args...]"
    options := "Options:"
    examples := "Examples:"
    home_desc := "Set custom HOME directory"
    sudo_desc := "Execute as root (like sudo)"
    help_desc := "Show this help"
    error_root := "Error: This program must be run as root or installed with SUID bit"
    error_home_arg := "Error: --home requires a path argument"
    error_unknown := "I don't know what the problem is, you're on your own now." }

/-- An operating system on which every call succeeds. -/
def sys_ok : Sys :=
  { t := english
    setuid_ok := true
    malloc_ok := true
    open_ok := true
    written := (fake_lib_code.utf8ByteSize : Int)
    gcc_status := 0
    mkdir_status := 0
    mkdir_files := fun home files => if home ∈ files then files else home :: files
    access_home_user := 0
    execvp_ok := fun _ _ => true }

/-- An operating system on which every call succeeds except the compiler run. -/
def sys_gcc_fails : Sys :=
  { t := english
    setuid_ok := true
    malloc_ok := true
    open_ok := true
    written := (fake_lib_code.utf8ByteSize : Int)
    gcc_status := 1
    mkdir_status := 0
    mkdir_files := fun home files => if home ∈ files then files else home :: files
    access_home_user := 0
    execvp_ok := fun _ _ => true }

/-- A sequence of flags without its `-s` / `--sudo`. -/
def strip_escalation : List Flag → List Flag
  | [] => []
  | Flag.escalate _ :: fs => strip_escalation fs
  | Flag.home long path :: fs => Flag.home long path :: strip_escalation fs

end Stfu

/-! # Theorems -/

namespace Stfu

set_option maxRecDepth 100000

/-! ## Pointer arrays -/


theorem arr_nil (cap : Nat) : arr cap [] = malloc cap := by
  simp [arr, malloc]

theorem store_arr (cap : Nat) (l : List String) (x : String) (h : l.length < cap) :
    store (arr cap l) l.length (Slot.ptr x) = some (arr cap (l ++ [x])) := by
  obtain ⟨k, hk⟩ : ∃ k, cap - l.length = k + 1 := ⟨cap - l.length - 1, by omega⟩
  have hk2 : cap - (l.length + 1) = k := by omega
  simp [store, arr, hk, hk2, List.replicate_succ]

theorem read_argv_ptrs (l : List String) (rest : List Slot) :
    read_argv (l.map Slot.ptr ++ Slot.null :: rest) = some l := by
  induction l with
  | nil => simp [read_argv]
  | cons a l ih => simp [read_argv, ih]

theorem store_null_arr (cap : Nat) (l : List String) (h : l.length < cap) :
    (store (arr cap l) l.length Slot.null).bind read_argv = some l := by
  obtain ⟨k, hk⟩ : ∃ k, cap - l.length = k + 1 := ⟨cap - l.length - 1, by omega⟩
  simp [store, arr, hk, List.replicate_succ, read_argv_ptrs]

theorem drop_eq_cons_of_getElem? {α : Type} (l : List α) (j : Nat) (x : α)
    (h : l[j]? = some x) : l.drop j = x :: l.drop (j + 1) := by
  obtain ⟨hj, rfl⟩ := List.getElem?_eq_some.mp h
  exact List.drop_eq_getElem_cons hj

theorem copy_flags_arr (argv : List String) (cap : Nat) :
    ∀ (n j : Nat) (l : List String), j + n ≤ argv.length → l.length + n < cap →
      (List.range' j n).foldlM (copy_flag argv) (arr cap l, l.length)
        = some (arr cap (l ++ ((argv.drop j).take n).filter is_kept),
                (l ++ ((argv.drop j).take n).filter is_kept).length) := by
  intro n
  induction n with
  | zero => intro j l _ _; simp
  | succ n ih =>
    intro j l hj hl
    have hlt : j < argv.length := by omega
    have hx : argv[j]? = some argv[j] := List.getElem?_eq_getElem hlt
    rw [drop_eq_cons_of_getElem? argv j _ hx]
    simp only [List.range'_succ, List.foldlM_cons, List.take_succ_cons, copy_flag, hx]
    by_cases hk : is_kept argv[j] = true
    · have hk' : argv[j] ≠ "-s" ∧ argv[j] ≠ "--sudo" := by simpa [is_kept] using hk
      rw [if_pos hk', store_arr cap l _ (by omega)]
      simp only [Option.map_some', Option.some_bind, Option.bind_eq_bind, List.filter_cons, hk, if_true]
      have := ih (j + 1) (l ++ [argv[j]]) (by omega) (by simp; omega)
      simp only [List.length_append, List.length_singleton] at this
      simp only [this, List.append_assoc, List.singleton_append, List.length_append, List.length_cons]
      congr 2; omega
    · have hk' : ¬ (argv[j] ≠ "-s" ∧ argv[j] ≠ "--sudo") := by simpa [is_kept] using hk
      rw [if_neg hk']
      simp only [Option.some_bind, Option.bind_eq_bind, List.filter_cons, hk]
      exact ih (j + 1) l (by omega) (by omega)

theorem copy_command_arr (argv : List String) (cap : Nat) :
    ∀ (n j : Nat) (l : List String), j + n ≤ argv.length → l.length + n < cap →
      (List.range' j n).foldlM (copy_command argv) (arr cap l, l.length)
        = some (arr cap (l ++ (argv.drop j).take n), (l ++ (argv.drop j).take n).length) := by
  intro n
  induction n with
  | zero => intro j l _ _; simp
  | succ n ih =>
    intro j l hj hl
    have hlt : j < argv.length := by omega
    have hx : argv[j]? = some argv[j] := List.getElem?_eq_getElem hlt
    rw [drop_eq_cons_of_getElem? argv j _ hx]
    simp only [List.range'_succ, List.foldlM_cons, List.take_succ_cons, copy_command, hx]
    rw [store_arr cap l _ (by omega)]
    simp only [Option.map_some', Option.some_bind, Option.bind_eq_bind]
    have := ih (j + 1) (l ++ [argv[j]]) (by omega) (by simp; omega)
    simp only [List.length_append, List.length_singleton] at this
    simp only [this, List.append_assoc, List.singleton_append, List.length_append, List.length_cons]
    congr 2; omega

theorem copy_arg_arr (argv : List String) (arg_start cap : Nat) :
    ∀ (n i : Nat) (l : List String), i + n ≤ argv.length → l.length + n < cap →
      i + 1 = l.length + arg_start → 1 ≤ l.length →
      (List.range' i n).foldlM (copy_arg argv arg_start) (arr cap l)
        = some (arr cap (l ++ (argv.drop i).take n)) := by
  intro n
  induction n with
  | zero => intro i l _ _ _ _; simp
  | succ n ih =>
    intro i l hi hl hil hpos
    have hlt : i < argv.length := by omega
    have hx : argv[i]? = some argv[i] := List.getElem?_eq_getElem hlt
    have hidx : i - arg_start + 1 = l.length := by omega
    rw [drop_eq_cons_of_getElem? argv i _ hx]
    simp only [List.range'_succ, List.foldlM_cons, List.take_succ_cons, copy_arg, hx, hidx]
    rw [store_arr cap l _ (by omega)]
    simp only [Option.some_bind, Option.bind_eq_bind]
    have := ih (i + 1) (l ++ [argv[i]]) (by omega) (by simp; omega)
      (by rw [List.length_append, List.length_singleton]; omega) (by simp)
    simp only [this, List.append_assoc, List.singleton_append]

/-- Closed form of the vector handed to `sudo`. -/
theorem sudo_args_eq (argv : List String) (arg_start : Nat) (argv0 : String)
    (h0 : argv[0]? = some argv0) (h1 : 1 ≤ arg_start) (h2 : arg_start ≤ argv.length) :
    sudo_args argv arg_start
      = some ("sudo" :: argv0 :: (((argv.drop 1).take (arg_start - 1)).filter is_kept
          ++ argv.drop arg_start)) := by
  have e1 : store (malloc (argv.length + 5)) 0 (Slot.ptr "sudo")
      = some (arr (argv.length + 5) ["sudo"]) := by
    have := store_arr (argv.length + 5) [] "sudo" (by simp)
    simpa [arr_nil] using this
  have e2 : store (arr (argv.length + 5) ["sudo"]) 1 (Slot.ptr argv0)
      = some (arr (argv.length + 5) ["sudo", argv0]) := by
    have := store_arr (argv.length + 5) ["sudo"] argv0 (by simp)
    simpa using this
  have e3 := copy_flags_arr argv (argv.length + 5) (arg_start - 1) 1 ["sudo", argv0]
    (by omega) (by simp; omega)
  have e4 := copy_command_arr argv (argv.length + 5) (argv.length - arg_start) arg_start
    (["sudo", argv0] ++ ((argv.drop 1).take (arg_start - 1)).filter is_kept) (by omega)
    (by
      have := List.length_filter_le is_kept ((argv.drop 1).take (arg_start - 1))
      simp only [List.length_take, List.length_drop] at this
      simp only [List.length_append, List.length_cons, List.length_nil]
      omega)
  have e5 : (argv.drop arg_start).take (argv.length - arg_start) = argv.drop arg_start := by
    apply List.take_of_length_le; simp
  simp only [List.length_cons, List.length_nil] at e3
  rw [e5] at e4
  simp only [sudo_args, build_sudo_args, h0, e1, e2, Option.some_bind, e3, e4]
  have := store_null_arr (argv.length + 5)
    (["sudo", argv0] ++ ((argv.drop 1).take (arg_start - 1)).filter is_kept ++ argv.drop arg_start)
    (by
      have := List.length_filter_le is_kept ((argv.drop 1).take (arg_start - 1))
      simp only [List.length_take, List.length_drop] at this
      simp only [List.length_append, List.length_cons, List.length_nil, List.length_drop]
      omega)
  simpa using this


/-! ## The parse loop -/


theorem parse_loop_fuel (argv : List String) :
    ∀ (f1 f2 i : Nat) (s : Bool) (h : Option String),
      argv.length - i < f1 → argv.length - i < f2 →
      parse_loop argv f1 i s h = parse_loop argv f2 i s h := by
  intro f1
  induction f1 with
  | zero => intro f2 i s h h1 _; omega
  | succ f1 ih =>
    intro f2 i s h h1 h2
    cases f2 with
    | zero => omega
    | succ f2 =>
      simp only [parse_loop]
      cases hi : argv[i]? with
      | none => rfl
      | some arg =>
        have hlt : i < argv.length := (List.getElem?_eq_some.mp hi).1
        simp only []
        split_ifs with c1 c2 c3 c4
        · rfl
        · rfl
        · cases hi1 : argv[i + 1]? with
          | none => rfl
          | some home =>
            have hlt1 : i + 1 < argv.length := (List.getElem?_eq_some.mp hi1).1
            exact ih f2 (i + 2) s (some home) (by omega) (by omega)
        · exact ih f2 (i + 1) true h (by omega) (by omega)
        · rfl

theorem parse_loop_result (argv : List String) :
    ∀ (fuel i : Nat) (s : Bool) (h : Option String), argv.length - i < fuel →
      parse_loop argv fuel i s h ≠ Parsed.out_of_fuel := by
  intro fuel
  induction fuel with
  | zero => intro i s h h1; omega
  | succ fuel ih =>
    intro i s h h1
    simp only [parse_loop]
    cases hi : argv[i]? with
    | none => simp
    | some arg =>
      have hlt : i < argv.length := (List.getElem?_eq_some.mp hi).1
      simp only []
      split_ifs with c1 c2 c3 c4
      · simp
      · simp
      · cases hi1 : argv[i + 1]? with
        | none => simp
        | some home =>
          have hlt1 : i + 1 < argv.length := (List.getElem?_eq_some.mp hi1).1
          exact ih (i + 2) s (some home) (by omega)
      · exact ih (i + 1) true h (by omega)
      · simp

theorem parse_loop_done_ge (argv : List String) :
    ∀ (fuel i : Nat) (s : Bool) (h : Option String) (a : Nat) (s' : Bool) (h' : Option String),
      parse_loop argv fuel i s h = Parsed.done a s' h' → i ≤ a := by
  intro fuel
  induction fuel with
  | zero => intro i s h a s' h' e; simp [parse_loop] at e
  | succ fuel ih =>
    intro i s h a s' h' e
    simp only [parse_loop] at e
    cases hi : argv[i]? with
    | none => rw [hi] at e; simp only [Parsed.done.injEq] at e; omega
    | some arg =>
      rw [hi] at e
      simp only [] at e
      split_ifs at e with c1 c2 c3 c4
      · simp only [Parsed.done.injEq] at e; omega
      · cases hi1 : argv[i + 1]? with
        | none => rw [hi1] at e; simp at e
        | some home =>
          rw [hi1] at e
          have := ih _ _ _ _ _ _ e
          omega
      · have := ih _ _ _ _ _ _ e
        omega
      · simp only [Parsed.done.injEq] at e; omega


/-! ## The gate of `main` -/

theorem parse_args_done_pos (argv : List String) (a : Nat) (sm : Bool) (h : Option String)
    (hp : parse_args argv = Parsed.done a sm h) : 1 ≤ a :=
  parse_loop_done_ge argv _ 1 false none a sm h hp

theorem main_of_done (sys : Sys) (argv : List String) (s : State) (a : Nat) (sm : Bool)
    (h : Option String) (hp : parse_args argv = Parsed.done a sm h) (ha : a < argv.length) :
    main sys argv s
      = if sm = true ∧ s.uid ≠ 0 then main_sudo sys argv a s
        else main_root sys argv a sm h s := by
  simp [main, hp, ha]

theorem argv0_of_lt (argv : List String) (a : Nat) (ha : a < argv.length) :
    ∃ argv0, argv[0]? = some argv0 := by
  cases argv with
  | nil => simp at ha
  | cons x xs => exact ⟨x, by simp⟩

/-! ## C1 -/

/-- C1, as stated, fails: for `stfu -s foo -s` run by uid 1000 the process image is replaced
by `sudo` with the vector `sudo stfu foo -s`, which contains `-s` (an argument of the
target command, copied as it is). -/
theorem C1_counterexample :
    parse_args ["stfu", "-s", "foo", "-s"] = Parsed.done 2 true none ∧
    (main sys_ok ["stfu", "-s", "foo", "-s"] (State.start 1000 1000 [] [])).2
      = Ending.replaced "sudo" ["sudo", "stfu", "foo", "-s"] ∧
    "-s" ∈ ["sudo", "stfu", "foo", "-s"] := by
  decide

/-- C1, amended: on the re-exec path (escalation flag parsed, real uid nonzero, a target
command present, `malloc` successful) the first call of the run is
`execvp("sudo", sudo_args)`, and `sudo_args` is `sudo`, `argv[0]`, the tokens
`argv[1..arg_start)` that are neither `-s` nor `--sudo`, then `argv[arg_start..argc)`
copied as they are; so no element between `argv[0]` and the target command equals `-s` or
`--sudo`. -/
theorem C1_sudo_args_pre_target (sys : Sys) (argv : List String) (uid euid : Nat)
    (env : List (String × String)) (files : List String) (a : Nat) (h : Option String)
    (hp : parse_args argv = Parsed.done a true h) (ha : a < argv.length) (hu : uid ≠ 0)
    (hm : sys.malloc_ok = true) :
    ∃ argv0, argv[0]? = some argv0 ∧
      "-s" ∉ ((argv.drop 1).take (a - 1)).filter is_kept ∧
      "--sudo" ∉ ((argv.drop 1).take (a - 1)).filter is_kept ∧
      sudo_args argv a
        = some ("sudo" :: argv0 :: (((argv.drop 1).take (a - 1)).filter is_kept
            ++ argv.drop a)) ∧
      (main sys argv (State.start uid euid env files)).1.trace.head?
        = some (Event.execvp "sudo"
            ("sudo" :: argv0 :: (((argv.drop 1).take (a - 1)).filter is_kept
              ++ argv.drop a))) := by
  obtain ⟨argv0, h0⟩ := argv0_of_lt argv a ha
  have hs := sudo_args_eq argv a argv0 h0 (parse_args_done_pos argv a true h hp) (by omega)
  refine ⟨argv0, h0, ?_, ?_, hs, ?_⟩
  · simp [List.mem_filter, is_kept]
  · simp [List.mem_filter, is_kept]
  · rw [main_of_done sys argv _ a true h hp ha]
    have hu' : (State.start uid euid env files).uid ≠ 0 := hu
    simp only [hu', true_and, ne_eq, not_false_eq_true, if_true, main_sudo, hm, not_true_eq_false,
      if_false, hs, execvp, emit, State.start]
    cases sys.execvp_ok "sudo" _ <;> simp [return_main, puts, emit, hu]

/-- Witness of C1: `stfu --sudo -H /h -s -x ls -s` run by uid 1000. -/
theorem C1_sudo_args_pre_target_witness :
    ∃ argv0, ["stfu", "--sudo", "-H", "/h", "-s", "-x", "ls", "-s"][0]? = some argv0 ∧
      "-s" ∉ ((["stfu", "--sudo", "-H", "/h", "-s", "-x", "ls", "-s"].drop 1).take
        (6 - 1)).filter is_kept ∧
      "--sudo" ∉ ((["stfu", "--sudo", "-H", "/h", "-s", "-x", "ls", "-s"].drop 1).take
        (6 - 1)).filter is_kept ∧
      sudo_args ["stfu", "--sudo", "-H", "/h", "-s", "-x", "ls", "-s"] 6
        = some ("sudo" :: argv0 ::
            (((["stfu", "--sudo", "-H", "/h", "-s", "-x", "ls", "-s"].drop 1).take
              (6 - 1)).filter is_kept
            ++ ["stfu", "--sudo", "-H", "/h", "-s", "-x", "ls", "-s"].drop 6)) ∧
      (main sys_ok ["stfu", "--sudo", "-H", "/h", "-s", "-x", "ls", "-s"]
          (State.start 1000 1000 [] [])).1.trace.head?
        = some (Event.execvp "sudo"
            ("sudo" :: argv0 ::
              (((["stfu", "--sudo", "-H", "/h", "-s", "-x", "ls", "-s"].drop 1).take
                (6 - 1)).filter is_kept
              ++ ["stfu", "--sudo", "-H", "/h", "-s", "-x", "ls", "-s"].drop 6))) :=
  C1_sudo_args_pre_target sys_ok ["stfu", "--sudo", "-H", "/h", "-s", "-x", "ls", "-s"]
    1000 1000 [] [] 6 (some "/h") (by decide) (by decide) (by decide) rfl

/-! ## C2 -/

/-- C2 fails on the code: for `stfu -s -H -s foo` the parser takes the second `-s` as the
operand of `-H` (custom home `-s`, target `foo`), but the rebuilt vector is
`sudo stfu -H foo`: the operand is dropped with the flag, and the re-executed program
reads `foo` as the home directory and finds no target command. -/
theorem C2_home_operand_dropped :
    parse_args ["stfu", "-s", "-H", "-s", "foo"] = Parsed.done 4 true (some "-s") ∧
    sudo_args ["stfu", "-s", "-H", "-s", "foo"] 4 = some ["sudo", "stfu", "-H", "foo"] ∧
    (main sys_ok ["stfu", "-s", "-H", "-s", "foo"] (State.start 1000 1000 [] [])).2
      = Ending.replaced "sudo" ["sudo", "stfu", "-H", "foo"] ∧
    parse_args ["stfu", "-H", "foo"] = Parsed.done 3 false (some "foo") ∧
    (main sys_ok ["stfu", "-H", "foo"] (State.start 0 0 [] [])).2 = Ending.exited 0 := by
  decide


/-! ## The launch stage -/

theorem store_null_arr_eq (cap : Nat) (l : List String) (h : l.length + 1 = cap) :
    store (arr cap l) l.length Slot.null = some (l.map Slot.ptr ++ [Slot.null]) := by
  have hk : cap - l.length = 1 := by omega
  simp [store, arr, hk]

/-- Closed form of the array `new_argv`. -/
theorem build_new_argv_eq (argv : List String) (a : Nat) (cmd : String)
    (hc : argv[a]? = some cmd) :
    build_new_argv argv a
      = some ((cmd :: "--no-sandbox" :: argv.drop (a + 1)).map Slot.ptr ++ [Slot.null]) := by
  have ha : a < argv.length := (List.getElem?_eq_some.mp hc).1
  have e1 : store (malloc (argv.length - a + 2)) 0 (Slot.ptr cmd)
      = some (arr (argv.length - a + 2) [cmd]) := by
    have := store_arr (argv.length - a + 2) [] cmd (by simp)
    simpa [arr_nil] using this
  have e2 : store (arr (argv.length - a + 2) [cmd]) 1 (Slot.ptr "--no-sandbox")
      = some (arr (argv.length - a + 2) [cmd, "--no-sandbox"]) := by
    have := store_arr (argv.length - a + 2) [cmd] "--no-sandbox" (by simp)
    simpa using this
  have e3 := copy_arg_arr argv a (argv.length - a + 2) (argv.length - (a + 1)) (a + 1)
    [cmd, "--no-sandbox"] (by omega) (by simp; omega) (by simp; omega) (by simp)
  have e4 : (argv.drop (a + 1)).take (argv.length - (a + 1)) = argv.drop (a + 1) := by
    apply List.take_of_length_le; simp
  rw [e4] at e3
  have e5 := store_null_arr_eq (argv.length - a + 2) ([cmd, "--no-sandbox"] ++ argv.drop (a + 1))
    (by simp; omega)
  have e6 : ([cmd, "--no-sandbox"] ++ argv.drop (a + 1)).length = argv.length - a + 1 := by
    simp; omega
  rw [e6] at e5
  simp only [build_new_argv, hc, e1, e2, e3, Option.some_bind, e5]
  simp

theorem read_argv_new_argv (l : List String) :
    read_argv (l.map Slot.ptr ++ [Slot.null]) = some l :=
  read_argv_ptrs l []

theorem drop_of_getElem? (argv : List String) (a : Nat) (cmd : String)
    (hc : argv[a]? = some cmd) : argv.drop a = cmd :: argv.drop (a + 1) :=
  drop_eq_cons_of_getElem? argv a cmd hc

/-- The vector a target launch hands to `execvp`. -/
theorem main_exec_eq (sys : Sys) (argv : List String) (a : Nat) (cmd : String) (s : State)
    (hc : argv[a]? = some cmd) :
    main_exec sys argv a cmd s
      = if is_firefox cmd = true then
          if sys.malloc_ok = true then
            (if sys.execvp_ok cmd (cmd :: "--no-sandbox" :: argv.drop (a + 1)) = true then
              (emit (Event.execvp cmd (cmd :: "--no-sandbox" :: argv.drop (a + 1)))
                (setenv "MOZ_DISABLE_GMP_SANDBOX" "1"
                  (setenv "MOZ_DISABLE_CONTENT_SANDBOX" "1" s)),
               Ending.replaced cmd (cmd :: "--no-sandbox" :: argv.drop (a + 1)))
            else
              return_main 1 (puts sys.t.error_unknown
                (emit (Event.execvp cmd (cmd :: "--no-sandbox" :: argv.drop (a + 1)))
                  (setenv "MOZ_DISABLE_GMP_SANDBOX" "1"
                    (setenv "MOZ_DISABLE_CONTENT_SANDBOX" "1" s)))))
          else return_main 1 (puts sys.t.error_unknown s)
        else
          (if sys.execvp_ok cmd (cmd :: argv.drop (a + 1)) = true then
            (emit (Event.execvp cmd (cmd :: argv.drop (a + 1))) s,
             Ending.replaced cmd (cmd :: argv.drop (a + 1)))
          else
            return_main 1 (puts sys.t.error_unknown
              (emit (Event.execvp cmd (cmd :: argv.drop (a + 1))) s))) := by
  unfold main_exec
  rw [build_new_argv_eq argv a cmd hc, drop_of_getElem? argv a cmd hc]
  by_cases hf : is_firefox cmd = true
  · by_cases hm : sys.malloc_ok = true
    · simp only [hf, hm, if_true, not_true_eq_false, if_false, read_argv_new_argv, execvp]
      cases sys.execvp_ok cmd (cmd :: "--no-sandbox" :: argv.drop (a + 1)) <;> simp
    · simp [hf, hm]
  · simp only [hf, if_false, execvp]
    cases sys.execvp_ok cmd (cmd :: argv.drop (a + 1)) <;> simp


/-! ## Fields of the state after each call -/

@[simp]
theorem emit_uid (e : Event) (s : State) : (emit e s).uid = s.uid := rfl

@[simp]
theorem emit_euid (e : Event) (s : State) : (emit e s).euid = s.euid := rfl

@[simp]
theorem emit_env (e : Event) (s : State) : (emit e s).env = s.env := rfl

@[simp]
theorem emit_files (e : Event) (s : State) : (emit e s).files = s.files := rfl

@[simp]
theorem emit_cleanup_registered (e : Event) (s : State) : (emit e s).cleanup_registered = s.cleanup_registered := rfl

@[simp]
theorem emit_trace (e : Event) (s : State) : (emit e s).trace = s.trace ++ [e] := rfl

@[simp]
theorem puts_uid (msg : String) (s : State) : (puts msg s).uid = s.uid := rfl

@[simp]
theorem puts_euid (msg : String) (s : State) : (puts msg s).euid = s.euid := rfl

@[simp]
theorem puts_env (msg : String) (s : State) : (puts msg s).env = s.env := rfl

@[simp]
theorem puts_files (msg : String) (s : State) : (puts msg s).files = s.files := rfl

@[simp]
theorem puts_cleanup_registered (msg : String) (s : State) : (puts msg s).cleanup_registered = s.cleanup_registered := rfl

@[simp]
theorem puts_trace (msg : String) (s : State) : (puts msg s).trace = s.trace ++ [Event.puts msg] := rfl

@[simp]
theorem show_help_uid (s : State) : (show_help s).uid = s.uid := rfl

@[simp]
theorem show_help_euid (s : State) : (show_help s).euid = s.euid := rfl

@[simp]
theorem show_help_env (s : State) : (show_help s).env = s.env := rfl

@[simp]
theorem show_help_files (s : State) : (show_help s).files = s.files := rfl

@[simp]
theorem show_help_cleanup_registered (s : State) : (show_help s).cleanup_registered = s.cleanup_registered := rfl

@[simp]
theorem show_help_trace (s : State) : (show_help s).trace = s.trace ++ [Event.show_help] := rfl

@[simp]
theorem setenv_uid (name value : String) (s : State) : (setenv name value s).uid = s.uid := rfl

@[simp]
theorem setenv_euid (name value : String) (s : State) : (setenv name value s).euid = s.euid := rfl

@[simp]
theorem setenv_env (name value : String) (s : State) : (setenv name value s).env = (name, value) :: s.env.filter (fun p => p.1 ≠ name) := rfl

@[simp]
theorem setenv_files (name value : String) (s : State) : (setenv name value s).files = s.files := rfl

@[simp]
theorem setenv_cleanup_registered (name value : String) (s : State) : (setenv name value s).cleanup_registered = s.cleanup_registered := rfl

@[simp]
theorem setenv_trace (name value : String) (s : State) : (setenv name value s).trace = s.trace ++ [Event.setenv name value] := rfl

@[simp]
theorem unsetenv_uid (name : String) (s : State) : (unsetenv name s).uid = s.uid := rfl

@[simp]
theorem unsetenv_euid (name : String) (s : State) : (unsetenv name s).euid = s.euid := rfl

@[simp]
theorem unsetenv_env (name : String) (s : State) : (unsetenv name s).env = s.env.filter (fun p => p.1 ≠ name) := rfl

@[simp]
theorem unsetenv_files (name : String) (s : State) : (unsetenv name s).files = s.files := rfl

@[simp]
theorem unsetenv_cleanup_registered (name : String) (s : State) : (unsetenv name s).cleanup_registered = s.cleanup_registered := rfl

@[simp]
theorem unsetenv_trace (name : String) (s : State) : (unsetenv name s).trace = s.trace ++ [Event.unsetenv name] := rfl

@[simp]
theorem unlink_uid (path : String) (s : State) : (unlink path s).uid = s.uid := rfl

@[simp]
theorem unlink_euid (path : String) (s : State) : (unlink path s).euid = s.euid := rfl

@[simp]
theorem unlink_env (path : String) (s : State) : (unlink path s).env = s.env := rfl

@[simp]
theorem unlink_files (path : String) (s : State) : (unlink path s).files = s.files.filter (fun f => f ≠ path) := rfl

@[simp]
theorem unlink_cleanup_registered (path : String) (s : State) : (unlink path s).cleanup_registered = s.cleanup_registered := rfl

@[simp]
theorem unlink_trace (path : String) (s : State) : (unlink path s).trace = s.trace ++ [Event.unlink path] := rfl

@[simp]
theorem atexit_cleanup_uid (s : State) : (atexit_cleanup s).uid = s.uid := rfl

@[simp]
theorem atexit_cleanup_euid (s : State) : (atexit_cleanup s).euid = s.euid := rfl

@[simp]
theorem atexit_cleanup_env (s : State) : (atexit_cleanup s).env = s.env := rfl

@[simp]
theorem atexit_cleanup_files (s : State) : (atexit_cleanup s).files = s.files := rfl

@[simp]
theorem atexit_cleanup_cleanup_registered (s : State) : (atexit_cleanup s).cleanup_registered = true := rfl

@[simp]
theorem atexit_cleanup_trace (s : State) : (atexit_cleanup s).trace = s.trace ++ [Event.atexit_cleanup] := rfl

@[simp]
theorem create_file_uid (path : String) (s : State) : (create_file path s).uid = s.uid := rfl

@[simp]
theorem create_file_euid (path : String) (s : State) : (create_file path s).euid = s.euid := rfl

@[simp]
theorem create_file_env (path : String) (s : State) : (create_file path s).env = s.env := rfl

@[simp]
theorem create_file_files (path : String) (s : State) : (create_file path s).files = if path ∈ s.files then s.files else path :: s.files := rfl

@[simp]
theorem create_file_cleanup_registered (path : String) (s : State) : (create_file path s).cleanup_registered = s.cleanup_registered := rfl

@[simp]
theorem create_file_trace (path : String) (s : State) : (create_file path s).trace = s.trace := rfl

@[simp]
theorem system_mkdir_uid (sys : Sys) (home : String) (s : State) :
    (system_mkdir sys home s).uid = s.uid := rfl

@[simp]
theorem system_mkdir_euid (sys : Sys) (home : String) (s : State) :
    (system_mkdir sys home s).euid = s.euid := rfl

@[simp]
theorem system_mkdir_env (sys : Sys) (home : String) (s : State) :
    (system_mkdir sys home s).env = s.env := rfl

@[simp]
theorem system_mkdir_files (sys : Sys) (home : String) (s : State) :
    (system_mkdir sys home s).files = sys.mkdir_files home s.files := rfl

@[simp]
theorem system_mkdir_cleanup_registered (sys : Sys) (home : String) (s : State) :
    (system_mkdir sys home s).cleanup_registered = s.cleanup_registered := rfl

@[simp]
theorem system_mkdir_trace (sys : Sys) (home : String) (s : State) :
    (system_mkdir sys home s).trace = s.trace ++ [Event.system_mkdir home] := rfl


@[simp]
theorem return_main_ending (status : Nat) (s : State) :
    (return_main status s).2 = Ending.exited status := rfl

theorem return_main_state (status : Nat) (s : State) :
    (return_main status s).1 = if s.cleanup_registered = true then cleanup s else s := rfl

theorem return_main_unregistered (status : Nat) (s : State)
    (h : s.cleanup_registered = false) : return_main status s = (s, Ending.exited status) := by
  simp [return_main, h]

@[simp]
theorem cleanup_trace (s : State) :
    (cleanup s).trace
      = s.trace ++ [Event.unlink "/tmp/stfu_fake.c", Event.unlink "/tmp/stfu_fake.so"] := by
  simp [cleanup]

@[simp]
theorem cleanup_files (s : State) :
    (cleanup s).files
      = (s.files.filter (fun f => f ≠ "/tmp/stfu_fake.c")).filter
          (fun f => f ≠ "/tmp/stfu_fake.so") := by
  simp [cleanup]

@[simp]
theorem cleanup_env (s : State) : (cleanup s).env = s.env := rfl

@[simp]
theorem cleanup_uid (s : State) : (cleanup s).uid = s.uid := rfl

@[simp]
theorem cleanup_registered_eq (s : State) :
    (cleanup s).cleanup_registered = s.cleanup_registered := rfl

theorem return_main_trace (status : Nat) (s : State) :
    ∃ evs, (return_main status s).1.trace = s.trace ++ evs := by
  rw [return_main_state]
  split_ifs
  · exact ⟨_, cleanup_trace s⟩
  · exact ⟨[], by simp⟩


theorem create_fake_lib_ok (sys : Sys) (s : State) (ho : sys.open_ok = true)
    (hw : sys.written = (fake_lib_code.utf8ByteSize : Int)) (hg : sys.gcc_status = 0) :
    create_fake_lib sys s = (shim_built sys s, none) := by
  simp [create_fake_lib, shim_built, ho, hw, hg]

theorem create_fake_lib_fail (sys : Sys) (s : State)
    (hf : ¬ (sys.open_ok = true ∧ sys.written = (fake_lib_code.utf8ByteSize : Int)
      ∧ sys.gcc_status = 0)) :
    ∃ s', create_fake_lib sys s = (s', some (Ending.exited_now 1)) ∧
      s'.cleanup_registered = s.cleanup_registered ∧ s'.env = s.env ∧ s'.uid = s.uid ∧
      (∀ p ∈ s.files, p ∈ s'.files) ∧
      ∃ evs, s'.trace = s.trace ++ Event.open_trunc "/tmp/stfu_fake.c" :: evs ∧
        ∀ e ∈ evs, e = Event.write "/tmp/stfu_fake.c" sys.written ∨ e = Event.system_gcc ∨
          e = Event.puts sys.t.error_unknown := by
  unfold create_fake_lib
  by_cases ho : sys.open_ok = true
  · by_cases hw : sys.written = (fake_lib_code.utf8ByteSize : Int)
    · have hg : sys.gcc_status ≠ 0 := fun hg => hf ⟨ho, hw, hg⟩
      refine ⟨puts sys.t.error_unknown (emit Event.system_gcc
        (emit (Event.write "/tmp/stfu_fake.c" sys.written)
          (create_file "/tmp/stfu_fake.c" (emit (Event.open_trunc "/tmp/stfu_fake.c") s)))),
        ?_, rfl, rfl, rfl, ?_, [Event.write "/tmp/stfu_fake.c" sys.written, Event.system_gcc,
          Event.puts sys.t.error_unknown], ?_, ?_⟩
      · simp [ho, hw, hg]
      · intro p hp; simp only [puts_files, emit_files, create_file_files]
        split_ifs
        · exact hp
        · exact List.mem_cons_of_mem _ hp
      · simp
      · intro e he; simp at he; tauto
    · refine ⟨puts sys.t.error_unknown (emit (Event.write "/tmp/stfu_fake.c" sys.written)
          (create_file "/tmp/stfu_fake.c" (emit (Event.open_trunc "/tmp/stfu_fake.c") s))),
        ?_, rfl, rfl, rfl, ?_, [Event.write "/tmp/stfu_fake.c" sys.written,
          Event.puts sys.t.error_unknown], ?_, ?_⟩
      · simp [ho, hw]
      · intro p hp; simp only [puts_files, emit_files, create_file_files]
        split_ifs
        · exact hp
        · exact List.mem_cons_of_mem _ hp
      · simp
      · intro e he; simp at he; tauto
  · refine ⟨puts sys.t.error_unknown (emit (Event.open_trunc "/tmp/stfu_fake.c") s),
      ?_, rfl, rfl, rfl, ?_, [Event.puts sys.t.error_unknown], ?_, ?_⟩
    · simp [ho]
    · intro p hp; exact hp
    · simp
    · intro e he; simp at he; tauto

theorem main_launch_ok (sys : Sys) (argv : List String) (a : Nat) (h : Option String)
    (s : State) (cmd : String) (hc : argv[a]? = some cmd) (ho : sys.open_ok = true)
    (hw : sys.written = (fake_lib_code.utf8ByteSize : Int)) (hg : sys.gcc_status = 0) :
    main_launch sys argv a h s = main_exec sys argv a cmd (launch_ready sys cmd h s) := by
  simp only [main_launch, create_fake_lib_ok sys s ho hw hg, hc, launch_ready]

theorem main_launch_fail (sys : Sys) (argv : List String) (a : Nat) (h : Option String)
    (s : State)
    (hf : ¬ (sys.open_ok = true ∧ sys.written = (fake_lib_code.utf8ByteSize : Int)
      ∧ sys.gcc_status = 0)) :
    main_launch sys argv a h s
      = ((create_fake_lib sys s).1, Ending.exited_now 1) := by
  obtain ⟨s', hs', _⟩ := create_fake_lib_fail sys s hf
  simp only [main_launch, hs']


theorem main_exec_trace (sys : Sys) (argv : List String) (a : Nat) (cmd : String) (s : State)
    (hc : argv[a]? = some cmd) :
    ∃ evs, (main_exec sys argv a cmd s).1.trace = s.trace ++ evs := by
  rw [main_exec_eq sys argv a cmd s hc]
  split_ifs
  · exact ⟨_, by simp only [emit_trace, setenv_trace, List.append_assoc]; rfl⟩
  · obtain ⟨evs, he⟩ := return_main_trace 1 (puts sys.t.error_unknown
      (emit (Event.execvp cmd (cmd :: "--no-sandbox" :: argv.drop (a + 1)))
        (setenv "MOZ_DISABLE_GMP_SANDBOX" "1" (setenv "MOZ_DISABLE_CONTENT_SANDBOX" "1" s))))
    exact ⟨_, by rw [he]; simp only [puts_trace, emit_trace, setenv_trace, List.append_assoc]; rfl⟩
  · obtain ⟨evs, he⟩ := return_main_trace 1 (puts sys.t.error_unknown s)
    exact ⟨_, by rw [he]; simp only [puts_trace, List.append_assoc]; rfl⟩
  · exact ⟨_, by simp only [emit_trace]; rfl⟩
  · obtain ⟨evs, he⟩ := return_main_trace 1 (puts sys.t.error_unknown
      (emit (Event.execvp cmd (cmd :: argv.drop (a + 1))) s))
    exact ⟨_, by rw [he]; simp only [puts_trace, emit_trace, List.append_assoc]; rfl⟩

theorem main_home_trace (sys : Sys) (cmd : String) (h : Option String) (s : State) :
    (main_home sys cmd h s).trace = s.trace ++
      (match h with
       | some home => [Event.system_mkdir home, Event.setenv "HOME" home,
           Event.setenv "STFU_CUSTOM_HOME" home]
       | none =>
         if is_firefox cmd = true then
           [Event.access "/home/user",
            Event.setenv "HOME" (if sys.access_home_user ≠ 0 then "/tmp" else "/home/user")]
         else []) := by
  unfold main_home
  cases h with
  | some home => simp
  | none =>
    by_cases hf : is_firefox cmd = true
    · simp [hf]
    · simp [hf]

theorem main_unset_trace (s : State) :
    (main_unset s).trace = s.trace ++ [Event.unsetenv "SUDO_USER", Event.unsetenv "SUDO_UID",
      Event.unsetenv "SUDO_GID", Event.unsetenv "SUDO_COMMAND"] := by
  simp [main_unset]

theorem shim_built_trace (sys : Sys) (s : State) :
    (shim_built sys s).trace = s.trace ++ [Event.open_trunc "/tmp/stfu_fake.c",
      Event.write "/tmp/stfu_fake.c" sys.written, Event.system_gcc] := by
  simp [shim_built]

theorem launch_ready_trace (sys : Sys) (cmd : String) (h : Option String) (s : State) :
    (launch_ready sys cmd h s).trace = s.trace ++
      ([Event.open_trunc "/tmp/stfu_fake.c", Event.write "/tmp/stfu_fake.c" sys.written,
        Event.system_gcc, Event.atexit_cleanup,
        Event.setenv "LD_PRELOAD" "/tmp/stfu_fake.so"] ++
      (match h with
       | some home => [Event.system_mkdir home, Event.setenv "HOME" home,
           Event.setenv "STFU_CUSTOM_HOME" home]
       | none =>
         if is_firefox cmd = true then
           [Event.access "/home/user",
            Event.setenv "HOME" (if sys.access_home_user ≠ 0 then "/tmp" else "/home/user")]
         else []) ++
      [Event.unsetenv "SUDO_USER", Event.unsetenv "SUDO_UID",
        Event.unsetenv "SUDO_GID", Event.unsetenv "SUDO_COMMAND"]) := by
  simp [launch_ready, main_unset_trace, main_home_trace, shim_built_trace]

/-- The first call of the launch stage is the `open` of `create_fake_lib`. -/
theorem main_launch_trace (sys : Sys) (argv : List String) (a : Nat) (h : Option String)
    (s : State) (cmd : String) (hc : argv[a]? = some cmd) :
    ∃ evs, (main_launch sys argv a h s).1.trace
      = s.trace ++ Event.open_trunc "/tmp/stfu_fake.c" :: evs := by
  by_cases hok : sys.open_ok = true ∧ sys.written = (fake_lib_code.utf8ByteSize : Int)
      ∧ sys.gcc_status = 0
  · rw [main_launch_ok sys argv a h s cmd hc hok.1 hok.2.1 hok.2.2]
    obtain ⟨evs, he⟩ := main_exec_trace sys argv a cmd (launch_ready sys cmd h s) hc
    rw [he, launch_ready_trace]
    exact ⟨_, by simp only [List.append_assoc, List.cons_append]; rfl⟩
  · rw [main_launch_fail sys argv a h s hok]
    obtain ⟨s', hs', _, _, _, _, evs, he, _⟩ := create_fake_lib_fail sys s hok
    exact ⟨evs, by rw [hs']; exact he⟩


theorem main_sudo_no_setuid (sys : Sys) (argv : List String) (a : Nat) (s : State)
    (hs : ∀ u, Event.setuid u ∉ s.trace) :
    ∀ u, Event.setuid u ∉ (main_sudo sys argv a s).1.trace := by
  intro u
  unfold main_sudo
  by_cases hm : sys.malloc_ok = true
  · simp only [hm, not_true_eq_false, if_false]
    cases sudo_args argv a with
    | none => exact hs u
    | some args =>
      simp only [execvp]
      cases sys.execvp_ok "sudo" args
      · obtain hr | hr := Bool.eq_false_or_eq_true s.cleanup_registered
        · simp [return_main, hr, hs u]
        · simp [return_main, hr, hs u]
      · simp [hs u]
  · obtain hr | hr := Bool.eq_false_or_eq_true s.cleanup_registered
    · simp [hm, return_main, hr, hs u]
    · simp [hm, return_main, hr, hs u]

/-! ## C3 -/

/-- C3, as stated, fails for the escalation flag set: `stfu -s foo` run with real uid 1000
and effective uid 0 makes the single call `execvp("sudo", [sudo, stfu, foo])`; no
`setuid(0)` is attempted and the real uid is still 1000 when the image is replaced. -/
theorem C3_counterexample :
    main sys_ok ["stfu", "-s", "foo"] (State.start 1000 0 [] [])
      = ({ uid := 1000, euid := 0, env := [], files := [], cleanup_registered := false,
           trace := [Event.execvp "sudo" ["sudo", "stfu", "foo"]] },
         Ending.replaced "sudo" ["sudo", "stfu", "foo"]) := by
  decide

/-- C3, amended: with a target command, a nonzero real uid and effective uid 0, when the
escalation flag is clear `main` calls `setuid(0)` first: on success the run goes on with
the launch stage (whose first call is the `open` of `create_fake_lib`) from a state whose
real uid is 0, on failure it prints `error_unknown` and returns 1 having done nothing
else; when the escalation flag is set, `main` makes no `setuid` call and takes the
re-exec through `sudo`. -/
theorem C3_gate_real_unprivileged (sys : Sys) (argv : List String) (uid : Nat)
    (env : List (String × String)) (files : List String) (a : Nat) (sm : Bool)
    (h : Option String) (hp : parse_args argv = Parsed.done a sm h) (ha : a < argv.length)
    (hu : uid ≠ 0) :
    (sm = false → sys.setuid_ok = true →
      main sys argv (State.start uid 0 env files)
        = main_launch sys argv a h
            { uid := 0, euid := 0, env := env, files := files, cleanup_registered := false,
              trace := [Event.setuid 0] } ∧
      (main sys argv (State.start uid 0 env files)).1.trace.take 2
        = [Event.setuid 0, Event.open_trunc "/tmp/stfu_fake.c"]) ∧
    (sm = false → sys.setuid_ok = false →
      main sys argv (State.start uid 0 env files)
        = ({ uid := uid, euid := 0, env := env, files := files, cleanup_registered := false,
             trace := [Event.setuid 0, Event.puts sys.t.error_unknown] },
           Ending.exited 1)) ∧
    (sm = true →
      main sys argv (State.start uid 0 env files)
        = main_sudo sys argv a (State.start uid 0 env files) ∧
      ∀ u, Event.setuid u ∉ (main sys argv (State.start uid 0 env files)).1.trace) := by
  have hm := main_of_done sys argv (State.start uid 0 env files) a sm h hp ha
  have hu' : (State.start uid 0 env files).uid ≠ 0 := hu
  obtain ⟨cmd, hc⟩ : ∃ cmd, argv[a]? = some cmd := ⟨argv[a], List.getElem?_eq_getElem ha⟩
  refine ⟨?_, ?_, ?_⟩
  · intro hsm hok
    have e : main sys argv (State.start uid 0 env files)
        = main_launch sys argv a h
            { uid := 0, euid := 0, env := env, files := files, cleanup_registered := false,
              trace := [Event.setuid 0] } := by
      rw [hm]
      simp [hsm, main_root, State.start, hu, hok, emit]
    refine ⟨e, ?_⟩
    obtain ⟨evs, he⟩ := main_launch_trace sys argv a h
      { uid := 0, euid := 0, env := env, files := files, cleanup_registered := false,
        trace := [Event.setuid 0] } cmd hc
    rw [e, he]
    simp
  · intro hsm hok
    rw [hm]
    simp [hsm, main_root, State.start, hu, hok, emit, return_main, puts]
  · intro hsm
    have e : main sys argv (State.start uid 0 env files)
        = main_sudo sys argv a (State.start uid 0 env files) := by
      rw [hm]; simp [hsm, hu']
    refine ⟨e, ?_⟩
    rw [e]
    exact main_sudo_no_setuid sys argv a _ (by simp [State.start])

/-- Witness of C3: `stfu ls` run with real uid 1000 and effective uid 0. -/
theorem C3_gate_real_unprivileged_witness :
    (false = false → sys_ok.setuid_ok = true →
      main sys_ok ["stfu", "ls"] (State.start 1000 0 [] [])
        = main_launch sys_ok ["stfu", "ls"] 1 none
            { uid := 0, euid := 0, env := [], files := [], cleanup_registered := false,
              trace := [Event.setuid 0] } ∧
      (main sys_ok ["stfu", "ls"] (State.start 1000 0 [] [])).1.trace.take 2
        = [Event.setuid 0, Event.open_trunc "/tmp/stfu_fake.c"]) ∧
    (false = false → sys_ok.setuid_ok = false →
      main sys_ok ["stfu", "ls"] (State.start 1000 0 [] [])
        = ({ uid := 1000, euid := 0, env := [], files := [], cleanup_registered := false,
             trace := [Event.setuid 0, Event.puts sys_ok.t.error_unknown] },
           Ending.exited 1)) ∧
    (false = true →
      main sys_ok ["stfu", "ls"] (State.start 1000 0 [] [])
        = main_sudo sys_ok ["stfu", "ls"] 1 (State.start 1000 0 [] []) ∧
      ∀ u, Event.setuid u ∉ (main sys_ok ["stfu", "ls"] (State.start 1000 0 [] [])).1.trace) :=
  C3_gate_real_unprivileged sys_ok ["stfu", "ls"] 1000 [] [] 1 false none (by decide)
    (by decide) (by decide)

/-! ## C4 -/

/-- C4: with a target command and real uid 0, whatever the escalation flag, `main` is the
launch stage run from the initial state: no `sudo` vector, no `setuid`, no root-required
message; its first call is the `open` of `create_fake_lib`. -/
theorem C4_root_proceeds (sys : Sys) (argv : List String) (euid : Nat)
    (env : List (String × String)) (files : List String) (a : Nat) (sm : Bool)
    (h : Option String) (hp : parse_args argv = Parsed.done a sm h) (ha : a < argv.length) :
    main sys argv (State.start 0 euid env files)
      = main_launch sys argv a h (State.start 0 euid env files) ∧
    (main sys argv (State.start 0 euid env files)).1.trace.head?
      = some (Event.open_trunc "/tmp/stfu_fake.c") := by
  obtain ⟨cmd, hc⟩ : ∃ cmd, argv[a]? = some cmd := ⟨argv[a], List.getElem?_eq_getElem ha⟩
  have e : main sys argv (State.start 0 euid env files)
      = main_launch sys argv a h (State.start 0 euid env files) := by
    rw [main_of_done sys argv _ a sm h hp ha]
    simp [main_root, State.start]
  refine ⟨e, ?_⟩
  obtain ⟨evs, he⟩ := main_launch_trace sys argv a h (State.start 0 euid env files) cmd hc
  rw [e, he]
  simp [State.start]

/-- Witness of C4: `stfu --sudo ls -l` run by root. -/
theorem C4_root_proceeds_witness :
    main sys_ok ["stfu", "--sudo", "ls", "-l"] (State.start 0 0 [] [])
      = main_launch sys_ok ["stfu", "--sudo", "ls", "-l"] 2 none (State.start 0 0 [] []) ∧
    (main sys_ok ["stfu", "--sudo", "ls", "-l"] (State.start 0 0 [] [])).1.trace.head?
      = some (Event.open_trunc "/tmp/stfu_fake.c") :=
  C4_root_proceeds sys_ok ["stfu", "--sudo", "ls", "-l"] 0 [] [] 2 true none (by decide)
    (by decide)

/-! ## C5 -/

/-- C5: with a target command, no escalation flag, and real and effective uid both nonzero,
the whole run is `puts(t->error_root)` followed by `return 1`: the environment and the
files are those of the start, `cleanup` is not registered, and no other call (no
`create_fake_lib`, no `setenv`, no `execvp`) is made. -/
theorem C5_reject (sys : Sys) (argv : List String) (uid euid : Nat)
    (env : List (String × String)) (files : List String) (a : Nat) (h : Option String)
    (hp : parse_args argv = Parsed.done a false h) (ha : a < argv.length) (hu : uid ≠ 0)
    (he : euid ≠ 0) :
    main sys argv (State.start uid euid env files)
      = ({ uid := uid, euid := euid, env := env, files := files, cleanup_registered := false,
           trace := [Event.puts sys.t.error_root] },
         Ending.exited 1) := by
  rw [main_of_done sys argv _ a false h hp ha]
  simp [main_root, State.start, hu, he, return_main, puts, emit]

/-- Witness of C5: `stfu -H /tmp/x someapp` run by uid 1000 without a SUID bit. -/
theorem C5_reject_witness :
    main sys_ok ["stfu", "-H", "/tmp/x", "someapp"] (State.start 1000 1000 [] [])
      = ({ uid := 1000, euid := 1000, env := [], files := [], cleanup_registered := false,
           trace := [Event.puts sys_ok.t.error_root] },
         Ending.exited 1) :=
  C5_reject sys_ok ["stfu", "-H", "/tmp/x", "someapp"] 1000 1000 [] [] 3 (some "/tmp/x")
    (by decide) (by decide) (by decide) (by decide)


/-! ## One iteration of the parse loop -/

theorem parse_step_end (argv : List String) (i : Nat) (sm : Bool) (h : Option String)
    (hi : argv[i]? = none) :
    parse_loop argv (argv.length + 1) i sm h = Parsed.done i sm h := by
  simp [parse_loop, hi]

theorem parse_step_target (argv : List String) (i : Nat) (sm : Bool) (h : Option String)
    (x : String) (hi : argv[i]? = some x) (hx : char0 x ≠ '-') :
    parse_loop argv (argv.length + 1) i sm h = Parsed.done i sm h := by
  simp [parse_loop, hi, hx]

theorem parse_step_help (argv : List String) (i : Nat) (sm : Bool) (h : Option String)
    (x : String) (hi : argv[i]? = some x) (hx : x = "-h" ∨ x = "--help") :
    parse_loop argv (argv.length + 1) i sm h = Parsed.help := by
  have hc : char0 x = '-' := by rcases hx with rfl | rfl <;> decide
  simp [parse_loop, hi, hc, hx]

theorem parse_step_sudo (argv : List String) (i : Nat) (sm : Bool) (h : Option String)
    (x : String) (hi : argv[i]? = some x) (hx : x = "-s" ∨ x = "--sudo") :
    parse_loop argv (argv.length + 1) i sm h
      = parse_loop argv (argv.length + 1) (i + 1) true h := by
  have hlt : i < argv.length := (List.getElem?_eq_some.mp hi).1
  have hc : char0 x = '-' := by rcases hx with rfl | rfl <;> decide
  have h1 : ¬ (x = "-h" ∨ x = "--help") := by rcases hx with rfl | rfl <;> decide
  have h2 : ¬ (x = "-H" ∨ x = "--home") := by rcases hx with rfl | rfl <;> decide
  rw [parse_loop]
  simp only [hi, hc, ne_eq, not_true_eq_false, if_false, h1, h2, hx, if_true]
  exact parse_loop_fuel argv _ _ _ _ _ (by omega) (by omega)

theorem parse_step_home (argv : List String) (i : Nat) (sm : Bool) (h : Option String)
    (x v : String) (hi : argv[i]? = some x) (hx : x = "-H" ∨ x = "--home")
    (hv : argv[i + 1]? = some v) :
    parse_loop argv (argv.length + 1) i sm h
      = parse_loop argv (argv.length + 1) (i + 2) sm (some v) := by
  have hlt : i + 1 < argv.length := (List.getElem?_eq_some.mp hv).1
  have hc : char0 x = '-' := by rcases hx with rfl | rfl <;> decide
  have h1 : ¬ (x = "-h" ∨ x = "--help") := by rcases hx with rfl | rfl <;> decide
  rw [parse_loop]
  simp only [hi, hc, ne_eq, not_true_eq_false, if_false, h1, hx, if_true, hv]
  exact parse_loop_fuel argv _ _ _ _ _ (by omega) (by omega)

theorem parse_step_home_missing (argv : List String) (i : Nat) (sm : Bool)
    (h : Option String) (x : String) (hi : argv[i]? = some x) (hx : x = "-H" ∨ x = "--home")
    (hv : argv[i + 1]? = none) :
    parse_loop argv (argv.length + 1) i sm h = Parsed.home_arg_error := by
  have hc : char0 x = '-' := by rcases hx with rfl | rfl <;> decide
  have h1 : ¬ (x = "-h" ∨ x = "--help") := by rcases hx with rfl | rfl <;> decide
  rw [parse_loop]
  simp only [hi, hc, ne_eq, not_true_eq_false, if_false, h1, hx, if_true, hv]

theorem parse_step_unknown (argv : List String) (i : Nat) (sm : Bool) (h : Option String)
    (x : String) (hi : argv[i]? = some x) (hc : char0 x = '-') (hx : x ∉ known_flags) :
    parse_loop argv (argv.length + 1) i sm h = Parsed.done (i + 1) sm h := by
  simp only [known_flags, List.mem_cons, List.mem_singleton, List.not_mem_nil, or_false,
    not_or] at hx
  obtain ⟨a1, a2, a3, a4, a5, a6⟩ := hx
  rw [parse_loop]
  simp [hi, hc, a1, a2, a3, a4, a5, a6]

theorem getElem?_mid (pre : List String) (x : String) (post : List String) :
    (pre ++ x :: post)[pre.length]? = some x := by
  rw [List.getElem?_append_right (le_refl _)]
  simp

theorem getElem?_mid_succ (pre : List String) (x y : String) (post : List String) :
    (pre ++ x :: y :: post)[pre.length + 1]? = some y := by
  have := getElem?_mid (pre ++ [x]) y post
  simpa using this

theorem getElem?_mid_last (pre : List String) (x : String) :
    (pre ++ [x])[pre.length + 1]? = none := by
  simp

/-- The loop run over a sequence of recognised flags. -/
theorem parse_loop_flags :
    ∀ (fs : List Flag) (pre tail : List String) (sm : Bool) (h : Option String),
      parse_loop (pre ++ (flag_tokens fs ++ tail)) ((pre ++ (flag_tokens fs ++ tail)).length + 1)
          pre.length sm h
        = parse_loop (pre ++ (flag_tokens fs ++ tail))
            ((pre ++ (flag_tokens fs ++ tail)).length + 1)
            (pre.length + (flag_tokens fs).length) (flags_sudo fs sm) (flags_home fs h) := by
  intro fs
  induction fs with
  | nil => intro pre tail sm h; simp [flag_tokens, flags_sudo, flags_home]
  | cons f fs ih =>
    intro pre tail sm h
    rcases f with long | ⟨long, path⟩
    · obtain ⟨x, hx, ht⟩ : ∃ x, (x = "-s" ∨ x = "--sudo") ∧ (Flag.escalate long).tokens = [x] := by
        cases long
        · exact ⟨"-s", Or.inl rfl, rfl⟩
        · exact ⟨"--sudo", Or.inr rfl, rfl⟩
      have e : pre ++ (flag_tokens (Flag.escalate long :: fs) ++ tail)
          = (pre ++ [x]) ++ (flag_tokens fs ++ tail) := by
        simp [flag_tokens, ht]
      have e' : pre ++ (flag_tokens (Flag.escalate long :: fs) ++ tail)
          = pre ++ x :: (flag_tokens fs ++ tail) := by
        simp [flag_tokens, ht]
      rw [parse_step_sudo _ pre.length sm h x (by rw [e']; exact getElem?_mid _ _ _) hx]
      have := ih (pre ++ [x]) tail true h
      rw [e]
      simp only [List.length_append, List.length_singleton] at this
      simp only [flag_tokens, ht, flags_sudo, flags_home, List.length_append,
        List.length_singleton, List.length_cons, List.length_nil]
      rw [this]
      congr 1
      omega
    · obtain ⟨x, hx, ht⟩ : ∃ x, (x = "-H" ∨ x = "--home")
          ∧ (Flag.home long path).tokens = [x, path] := by
        cases long
        · exact ⟨"-H", Or.inl rfl, rfl⟩
        · exact ⟨"--home", Or.inr rfl, rfl⟩
      have e : pre ++ (flag_tokens (Flag.home long path :: fs) ++ tail)
          = (pre ++ [x, path]) ++ (flag_tokens fs ++ tail) := by
        simp [flag_tokens, ht]
      have e' : pre ++ (flag_tokens (Flag.home long path :: fs) ++ tail)
          = pre ++ x :: path :: (flag_tokens fs ++ tail) := by
        simp [flag_tokens, ht]
      rw [parse_step_home _ pre.length sm h x path (by rw [e']; exact getElem?_mid _ _ _) hx
        (by rw [e']; exact getElem?_mid_succ _ _ _ _)]
      have := ih (pre ++ [x, path]) tail sm (some path)
      rw [e]
      simp only [List.length_append, List.length_cons, List.length_nil] at this
      simp only [flag_tokens, ht, flags_sudo, flags_home, List.length_append,
        List.length_cons, List.length_nil]
      rw [this]
      congr 1
      omega

/-- The loop of `main` run over `prog`, a sequence of recognised flags, and a tail. -/
theorem parse_args_flags (prog : String) (fs : List Flag) (tail : List String) :
    parse_args (prog :: (flag_tokens fs ++ tail))
      = parse_loop (prog :: (flag_tokens fs ++ tail))
          ((prog :: (flag_tokens fs ++ tail)).length + 1)
          (1 + (flag_tokens fs).length) (flags_sudo fs false) (flags_home fs none) := by
  have := parse_loop_flags fs [prog] tail false none
  simpa [parse_args] using this


theorem getElem?_after_flags (prog : String) (fs : List Flag) (tail : List String) (k : Nat) :
    (prog :: (flag_tokens fs ++ tail))[1 + (flag_tokens fs).length + k]? = tail[k]? := by
  have e : prog :: (flag_tokens fs ++ tail) = (prog :: flag_tokens fs) ++ tail := by simp
  rw [e, List.getElem?_append_right (by simp; omega)]
  congr 1
  simp only [List.length_cons]
  omega

theorem drop_after_flags (prog : String) (fs : List Flag) (tail : List String) :
    (prog :: (flag_tokens fs ++ tail)).drop (1 + (flag_tokens fs).length) = tail := by
  have e : prog :: (flag_tokens fs ++ tail) = (prog :: flag_tokens fs) ++ tail := by simp
  rw [e]
  have hl : 1 + (flag_tokens fs).length = (prog :: flag_tokens fs).length := by
    simp only [List.length_cons]; omega
  rw [hl, List.drop_left]

theorem main_root_uid0 (sys : Sys) (argv : List String) (euid : Nat)
    (env : List (String × String)) (files : List String) (a : Nat) (sm : Bool)
    (h : Option String) (hp : parse_args argv = Parsed.done a sm h) (ha : a < argv.length) :
    main sys argv (State.start 0 euid env files)
      = main_launch sys argv a h (State.start 0 euid env files) := by
  rw [main_of_done sys argv _ a sm h hp ha]
  simp [main_root, State.start]

/-! ## C6 -/

/-- C6, as stated, fails: `stfu -x -y foo` holds no help flag and no `-H`, yet parsing stops
at index 2: the unrecognised `-x` is skipped and `-y`, which begins with `-`, is the
target command that root launches with the vector `-y foo`. -/
theorem C6_counterexample :
    parse_args ["stfu", "-x", "-y", "foo"] = Parsed.done 2 false none ∧
    ["stfu", "-x", "-y", "foo"][2]? = some "-y" ∧ char0 "-y" = '-' ∧
    (main sys_ok ["stfu", "-x", "-y", "foo"] (State.start 0 0 [] [])).2
      = Ending.replaced "-y" ["-y", "foo"] := by
  refine ⟨by decide, by decide, by decide, ?_⟩
  rw [main_root_uid0 sys_ok _ 0 [] [] 2 false none (by decide) (by decide),
    main_launch_ok sys_ok ["stfu", "-x", "-y", "foo"] 2 none (State.start 0 0 [] [])
      "-y" (by decide) rfl rfl rfl,
    main_exec_eq sys_ok ["stfu", "-x", "-y", "foo"] 2 "-y" _ (by decide)]
  have hf : is_firefox "-y" = false := by decide
  simp only [hf, Bool.false_eq_true, if_false, sys_ok, if_true]
  rfl

/-- C6, amended: when the tokens after the program name are a sequence of recognised flags
(`-s`, `--sudo`, `-H path`, `--home path`), then either directly a token `target` that does
not begin with `-`, or one token that begins with `-` and is none of the six flag
spellings followed by a token `target` of any text, parsing ends with `arg_start` at the
index of `target`: the unrecognised token, if any, is skipped, `argv[arg_start]` is
`target`, and `argv[arg_start..argc)` is `target` and the tokens after it, unchanged;
`sudo_mode` and `custom_home` are those set by the flags. -/
theorem C6_parse_stops (prog : String) (fs : List Flag) (skipped : List String)
    (target : String) (rest : List String)
    (hs : (skipped = [] ∧ char0 target ≠ '-') ∨
      (∃ x, skipped = [x] ∧ char0 x = '-' ∧ x ∉ known_flags)) :
    parse_args (prog :: (flag_tokens fs ++ (skipped ++ target :: rest)))
      = Parsed.done (1 + (flag_tokens fs).length + skipped.length)
          (flags_sudo fs false) (flags_home fs none) ∧
    (prog :: (flag_tokens fs ++ (skipped ++ target :: rest)))[1 + (flag_tokens fs).length
        + skipped.length]? = some target ∧
    (prog :: (flag_tokens fs ++ (skipped ++ target :: rest))).drop
        (1 + (flag_tokens fs).length + skipped.length) = target :: rest := by
  rcases hs with ⟨rfl, ht⟩ | ⟨x, rfl, hc, hx⟩
  · refine ⟨?_, ?_, ?_⟩
    · rw [parse_args_flags]
      exact parse_step_target _ _ _ _ target
        (by simpa using getElem?_after_flags prog fs (target :: rest) 0) ht
    · simpa using getElem?_after_flags prog fs (target :: rest) 0
    · simpa using drop_after_flags prog fs (target :: rest)
  · refine ⟨?_, ?_, ?_⟩
    · rw [parse_args_flags]
      exact parse_step_unknown _ _ _ _ x
        (by simpa using getElem?_after_flags prog fs (x :: target :: rest) 0) hc hx
    · simpa using getElem?_after_flags prog fs (x :: target :: rest) 1
    · have := drop_after_flags prog fs (x :: target :: rest)
      simp only [List.length_singleton, List.singleton_append]
      rw [← List.drop_drop, this]
      rfl

/-- Witness of C6: `stfu -H /h --sudo -x -y foo`. -/
theorem C6_parse_stops_witness :
    parse_args ("stfu" :: (flag_tokens [Flag.home false "/h", Flag.escalate true]
        ++ (["-x"] ++ "-y" :: ["foo"])))
      = Parsed.done (1 + (flag_tokens [Flag.home false "/h", Flag.escalate true]).length
          + ["-x"].length)
          (flags_sudo [Flag.home false "/h", Flag.escalate true] false)
          (flags_home [Flag.home false "/h", Flag.escalate true] none) ∧
    ("stfu" :: (flag_tokens [Flag.home false "/h", Flag.escalate true]
        ++ (["-x"] ++ "-y" :: ["foo"])))[1
        + (flag_tokens [Flag.home false "/h", Flag.escalate true]).length
        + ["-x"].length]? = some "-y" ∧
    ("stfu" :: (flag_tokens [Flag.home false "/h", Flag.escalate true]
        ++ (["-x"] ++ "-y" :: ["foo"]))).drop
        (1 + (flag_tokens [Flag.home false "/h", Flag.escalate true]).length
          + ["-x"].length) = "-y" :: ["foo"] :=
  C6_parse_stops "stfu" [Flag.home false "/h", Flag.escalate true] ["-x"] "-y" ["foo"]
    (Or.inr ⟨"-x", rfl, by decide, by decide⟩)

theorem main_home_missing (sys : Sys) (prog : String) (fs : List Flag) (x : String)
    (hx : x = "-H" ∨ x = "--home") (uid euid : Nat) (env : List (String × String))
    (files : List String) :
    main sys (prog :: (flag_tokens fs ++ [x])) (State.start uid euid env files)
      = ({ uid := uid, euid := euid, env := env, files := files, cleanup_registered := false,
           trace := [Event.puts sys.t.error_home_arg] },
         Ending.exited 1) := by
  have hp : parse_args (prog :: (flag_tokens fs ++ [x])) = Parsed.home_arg_error := by
    rw [parse_args_flags]
    have h0 := getElem?_after_flags prog fs [x] 0
    have h1 := getElem?_after_flags prog fs [x] 1
    exact parse_step_home_missing _ _ _ _ x (by simpa using h0) hx (by simpa using h1)
  simp only [main, hp]
  rfl

/-! ## Substrings and the environment -/

theorem strstr_iff (haystack needle : List Char) :
    strstr haystack needle = true ↔ needle <:+: haystack := by
  induction haystack with
  | nil => cases needle <;> simp [strstr]
  | cons c cs ih =>
    rw [strstr, Bool.or_eq_true, ih, List.infix_cons_iff, List.isPrefixOf_iff_prefix]

theorem is_firefox_iff (cmd : String) :
    is_firefox cmd = true ↔ "firefox".data <:+: cmd.data :=
  strstr_iff _ _

theorem getenv_setenv_self (name value : String) (s : State) :
    getenv name (setenv name value s) = some value := by
  simp [getenv, setenv, emit]

theorem getenv_filter_ne (name other : String) (env : List (String × String))
    (hn : name ≠ other) :
    (List.find? (fun p => decide (p.1 = name))
        (List.filter (fun p => decide (p.1 ≠ other)) env))
      = List.find? (fun p => decide (p.1 = name)) env := by
  induction env with
  | nil => rfl
  | cons p env ih =>
    by_cases h2 : p.1 = other
    · have h1 : ¬ p.1 = name := fun e => hn (e.symm.trans h2)
      rw [List.filter_cons_of_neg (by simpa using h2),
        List.find?_cons_of_neg _ (by simpa using h1), ih]
    · rw [List.filter_cons_of_pos (by simpa using h2)]
      by_cases h1 : p.1 = name
      · rw [List.find?_cons_of_pos _ (by simpa using h1),
          List.find?_cons_of_pos _ (by simpa using h1)]
      · rw [List.find?_cons_of_neg _ (by simpa using h1),
          List.find?_cons_of_neg _ (by simpa using h1), ih]

theorem getenv_setenv_ne (name other value : String) (s : State) (hn : name ≠ other) :
    getenv name (setenv other value s) = getenv name s := by
  have hn' : ¬ other = name := fun e => hn e.symm
  simp only [getenv, setenv_env, List.find?_cons, hn', decide_False]
  rw [getenv_filter_ne name other s.env hn]

theorem getenv_unsetenv_ne (name other : String) (s : State) (hn : name ≠ other) :
    getenv name (unsetenv other s) = getenv name s := by
  simp only [getenv, unsetenv_env]
  rw [getenv_filter_ne name other s.env hn]

@[simp]
theorem getenv_emit (name : String) (e : Event) (s : State) :
    getenv name (emit e s) = getenv name s := rfl

@[simp]
theorem getenv_create_file (name path : String) (s : State) :
    getenv name (create_file path s) = getenv name s := rfl

@[simp]
theorem getenv_atexit_cleanup (name : String) (s : State) :
    getenv name (atexit_cleanup s) = getenv name s := rfl

@[simp]
theorem getenv_system_mkdir (name : String) (sys : Sys) (home : String) (s : State) :
    getenv name (system_mkdir sys home s) = getenv name s := rfl

/-! ## A run that ends in the target command -/

/-- A launch stage that replaces the process image went through every step. -/
theorem main_launch_replaced (sys : Sys) (argv : List String) (a : Nat) (h : Option String)
    (s s' : State) (cmd file : String) (args : List String) (hc : argv[a]? = some cmd)
    (hrun : main_launch sys argv a h s = (s', Ending.replaced file args)) :
    (sys.open_ok = true ∧ sys.written = (fake_lib_code.utf8ByteSize : Int)
      ∧ sys.gcc_status = 0) ∧ file = cmd ∧
    ((is_firefox cmd = true ∧ sys.malloc_ok = true ∧
        args = cmd :: "--no-sandbox" :: argv.drop (a + 1) ∧
        s' = emit (Event.execvp cmd args) (setenv "MOZ_DISABLE_GMP_SANDBOX" "1"
          (setenv "MOZ_DISABLE_CONTENT_SANDBOX" "1" (launch_ready sys cmd h s)))) ∨
     (is_firefox cmd = false ∧ args = cmd :: argv.drop (a + 1) ∧
        s' = emit (Event.execvp cmd args) (launch_ready sys cmd h s))) := by
  by_cases hok : sys.open_ok = true ∧ sys.written = (fake_lib_code.utf8ByteSize : Int)
      ∧ sys.gcc_status = 0
  · refine ⟨hok, ?_⟩
    rw [main_launch_ok sys argv a h s cmd hc hok.1 hok.2.1 hok.2.2,
      main_exec_eq sys argv a cmd _ hc] at hrun
    split_ifs at hrun with hf hm hx hx
    · simp only [Prod.mk.injEq, Ending.replaced.injEq] at hrun
      obtain ⟨h1, h2, h3⟩ := hrun
      exact ⟨h2.symm, Or.inl ⟨hf, hm, h3.symm, by rw [← h1, ← h3]⟩⟩
    · have := congrArg Prod.snd hrun
      simp at this
    · have := congrArg Prod.snd hrun
      simp at this
    · simp only [Prod.mk.injEq, Ending.replaced.injEq] at hrun
      obtain ⟨h1, h2, h3⟩ := hrun
      exact ⟨h2.symm, Or.inr ⟨by simpa using hf, h3.symm, by rw [← h1, ← h3]⟩⟩
    · have := congrArg Prod.snd hrun
      simp at this
  · rw [main_launch_fail sys argv a h s hok] at hrun
    have := congrArg Prod.snd hrun
    simp at this


theorem getenv_shim_built (name : String) (sys : Sys) (s : State) :
    getenv name (shim_built sys s) = getenv name s := rfl

theorem getenv_main_home_ne (name : String) (sys : Sys) (cmd : String) (h : Option String)
    (s : State) (h1 : name ≠ "HOME") (h2 : name ≠ "STFU_CUSTOM_HOME") :
    getenv name (main_home sys cmd h s) = getenv name s := by
  unfold main_home
  cases h with
  | some home =>
    simp only [getenv_setenv_ne _ _ _ _ h2, getenv_setenv_ne _ _ _ _ h1, getenv_system_mkdir]
  | none =>
    by_cases hf : is_firefox cmd = true
    · simp only [hf, if_true, getenv_setenv_ne _ _ _ _ h1, getenv_emit]
    · simp only [hf, if_false, Bool.false_eq_true]

theorem getenv_main_unset_ne (name : String) (s : State) (h1 : name ≠ "SUDO_USER")
    (h2 : name ≠ "SUDO_UID") (h3 : name ≠ "SUDO_GID") (h4 : name ≠ "SUDO_COMMAND") :
    getenv name (main_unset s) = getenv name s := by
  simp only [main_unset, getenv_unsetenv_ne _ _ _ h1, getenv_unsetenv_ne _ _ _ h2,
    getenv_unsetenv_ne _ _ _ h3, getenv_unsetenv_ne _ _ _ h4]

/-- The launch preparation writes no variable other than the seven it names. -/
theorem getenv_launch_ready_ne (name : String) (sys : Sys) (cmd : String)
    (h : Option String) (s : State)
    (hn : name ∉ ["LD_PRELOAD", "HOME", "STFU_CUSTOM_HOME", "SUDO_USER", "SUDO_UID",
      "SUDO_GID", "SUDO_COMMAND"]) :
    getenv name (launch_ready sys cmd h s) = getenv name s := by
  simp only [List.mem_cons, List.mem_singleton, List.not_mem_nil, or_false, not_or] at hn
  obtain ⟨a1, a2, a3, a4, a5, a6, a7⟩ := hn
  rw [launch_ready, getenv_main_unset_ne _ _ a4 a5 a6 a7, getenv_main_home_ne _ _ _ _ _ a2 a3,
    getenv_setenv_ne _ _ _ _ a1, getenv_atexit_cleanup, getenv_shim_built]

/-- The gate of `main` when the re-exec through `sudo` is not taken. -/
theorem main_gate (sys : Sys) (argv : List String) (uid euid : Nat)
    (env : List (String × String)) (files : List String) (a : Nat) (sm : Bool)
    (h : Option String) (hp : parse_args argv = Parsed.done a sm h) (ha : a < argv.length)
    (hg : sm = false ∨ uid = 0) :
    main sys argv (State.start uid euid env files)
      = if uid = 0 then main_launch sys argv a h (State.start 0 euid env files)
        else if euid = 0 then
          if sys.setuid_ok = true then
            main_launch sys argv a h
              { uid := 0, euid := 0, env := env, files := files, cleanup_registered := false,
                trace := [Event.setuid 0] }
          else
            ({ uid := uid, euid := 0, env := env, files := files, cleanup_registered := false,
               trace := [Event.setuid 0, Event.puts sys.t.error_unknown] }, Ending.exited 1)
        else
          ({ uid := uid, euid := euid, env := env, files := files,
             cleanup_registered := false, trace := [Event.puts sys.t.error_root] },
           Ending.exited 1) := by
  by_cases hu : uid = 0
  · subst hu
    rw [main_root_uid0 sys argv euid env files a sm h hp ha]
    simp
  · have hsm : sm = false := by
      rcases hg with hg | hg
      · exact hg
      · exact absurd hg hu
    subst hsm
    rw [main_of_done sys argv _ a false h hp ha]
    by_cases he : euid = 0
    · subst he
      by_cases hs : sys.setuid_ok = true
      · simp [main_root, State.start, hu, hs, emit]
      · simp [main_root, State.start, hu, hs, emit, return_main, puts]
    · simp [main_root, State.start, hu, he, emit, return_main, puts]

/-- A run of `main` that replaces the image outside the `sudo` path is a launch stage
entered with the environment and files of the start, nothing registered, and a trace that
is empty or holds the one call `setuid(0)`. -/
theorem main_replaced_launch (sys : Sys) (argv : List String) (uid euid : Nat)
    (env : List (String × String)) (files : List String) (a : Nat) (sm : Bool)
    (h : Option String) (s' : State) (file : String) (args : List String)
    (hp : parse_args argv = Parsed.done a sm h) (ha : a < argv.length)
    (hg : sm = false ∨ uid = 0)
    (hrun : main sys argv (State.start uid euid env files) = (s', Ending.replaced file args)) :
    ∃ s1, main_launch sys argv a h s1 = (s', Ending.replaced file args) ∧
      s1.env = env ∧ s1.files = files ∧ s1.cleanup_registered = false ∧ s1.uid = 0 ∧
      (s1.trace = [] ∨ s1.trace = [Event.setuid 0]) := by
  rw [main_gate sys argv uid euid env files a sm h hp ha hg] at hrun
  split_ifs at hrun with h1 h2 h3
  · exact ⟨_, hrun, rfl, rfl, rfl, rfl, Or.inl rfl⟩
  · exact ⟨_, hrun, rfl, rfl, rfl, rfl, Or.inr rfl⟩
  · have := congrArg Prod.snd hrun
    simp at this
  · have := congrArg Prod.snd hrun
    simp at this

/-! ## C8 -/

/-- C8: let a run launch the target `[cmd, a1, ..., an] = argv[arg_start..argc)` (the image
is replaced, not through `sudo`). The file executed is `cmd`. If `cmd` contains `firefox`,
the vector is `[cmd, "--no-sandbox", a1, ..., an]`, the array `new_argv` is these strings
followed by NULL and fills exactly `argc - arg_start + 2` cells, and at the exec both
`MOZ_DISABLE_CONTENT_SANDBOX` and `MOZ_DISABLE_GMP_SANDBOX` are `1`. If `cmd` does not
contain `firefox`, the vector is `[cmd, a1, ..., an]`, both variables have the value they
had at the start, and no `setenv` of either is in the trace. -/
theorem C8_launch_vector (sys : Sys) (argv : List String) (uid euid : Nat)
    (env : List (String × String)) (files : List String) (a : Nat) (sm : Bool)
    (h : Option String) (cmd : String) (rest : List String) (s' : State) (file : String)
    (args : List String)
    (hp : parse_args argv = Parsed.done a sm h) (hd : argv.drop a = cmd :: rest)
    (hg : sm = false ∨ uid = 0)
    (hrun : main sys argv (State.start uid euid env files) = (s', Ending.replaced file args)) :
    file = cmd ∧
    ("firefox".data <:+: cmd.data →
      args = cmd :: "--no-sandbox" :: rest ∧
      build_new_argv argv a
        = some ((cmd :: "--no-sandbox" :: rest).map Slot.ptr ++ [Slot.null]) ∧
      ((cmd :: "--no-sandbox" :: rest).map Slot.ptr ++ [Slot.null]).length
        = argv.length - a + 2 ∧
      getenv "MOZ_DISABLE_CONTENT_SANDBOX" s' = some "1" ∧
      getenv "MOZ_DISABLE_GMP_SANDBOX" s' = some "1") ∧
    (¬ "firefox".data <:+: cmd.data →
      args = cmd :: rest ∧
      getenv "MOZ_DISABLE_CONTENT_SANDBOX" s' = getenv "MOZ_DISABLE_CONTENT_SANDBOX"
        (State.start uid euid env files) ∧
      getenv "MOZ_DISABLE_GMP_SANDBOX" s' = getenv "MOZ_DISABLE_GMP_SANDBOX"
        (State.start uid euid env files) ∧
      ∀ v, Event.setenv "MOZ_DISABLE_CONTENT_SANDBOX" v ∉ s'.trace ∧
        Event.setenv "MOZ_DISABLE_GMP_SANDBOX" v ∉ s'.trace) := by
  have ha : a < argv.length := by
    by_contra hge
    rw [List.drop_of_length_le (by omega)] at hd
    simp at hd
  have hc : argv[a]? = some cmd := by
    have := List.getElem?_drop argv a 0
    rw [hd] at this
    simpa using this.symm
  have hrest : argv.drop (a + 1) = rest := by
    have := drop_of_getElem? argv a cmd hc
    rw [hd] at this
    exact (List.cons.inj this).2.symm
  obtain ⟨s1, hl, henv, _, _, _, htr⟩ :=
    main_replaced_launch sys argv uid euid env files a sm h s' file args hp ha hg hrun
  obtain ⟨_, hfile, hcase⟩ := main_launch_replaced sys argv a h s1 s' cmd file args hc hl
  rw [hrest] at hcase
  refine ⟨hfile, ?_, ?_⟩
  · intro hff
    have hf : is_firefox cmd = true := (is_firefox_iff cmd).mpr hff
    rcases hcase with ⟨_, _, hargs, hs'⟩ | ⟨hnf, _, _⟩
    · refine ⟨hargs, ?_, ?_, ?_, ?_⟩
      · rw [build_new_argv_eq argv a cmd hc, hrest]
      · have hlen : rest.length = argv.length - (a + 1) := by
          rw [← hrest, List.length_drop]
        simp only [List.length_append, List.length_map, List.length_cons, List.length_nil,
          hlen]
        omega
      · rw [hs', getenv_emit, getenv_setenv_ne _ _ _ _ (by decide), getenv_setenv_self]
      · rw [hs', getenv_emit, getenv_setenv_self]
    · rw [hf] at hnf
      exact absurd hnf (by decide)
  · intro hff
    have hf : ¬ is_firefox cmd = true := fun e => hff ((is_firefox_iff cmd).mp e)
    rcases hcase with ⟨hyes, _, _, _⟩ | ⟨_, hargs, hs'⟩
    · exact absurd hyes hf
    · refine ⟨hargs, ?_, ?_, ?_⟩
      · rw [hs', getenv_emit, getenv_launch_ready_ne _ _ _ _ _ (by decide)]
        simp only [getenv, henv, State.start]
      · rw [hs', getenv_emit, getenv_launch_ready_ne _ _ _ _ _ (by decide)]
        simp only [getenv, henv, State.start]
      · intro v
        have hf' : is_firefox cmd = false := by simpa using hf
        rw [hs', emit_trace, launch_ready_trace]
        rcases htr with htr | htr <;> cases h <;> simp [htr, hf']



/-- Witness of C8: `stfu firefox a` run by root on a system where every call succeeds. -/
theorem C8_launch_vector_witness :
    ["firefox", "--no-sandbox", "a"] = "firefox" :: "--no-sandbox" :: ["a"] ∧
    build_new_argv ["stfu", "firefox", "a"] 1
      = some (("firefox" :: "--no-sandbox" :: ["a"]).map Slot.ptr ++ [Slot.null]) ∧
    (("firefox" :: "--no-sandbox" :: ["a"]).map Slot.ptr ++ [Slot.null]).length
      = ["stfu", "firefox", "a"].length - 1 + 2 ∧
    getenv "MOZ_DISABLE_CONTENT_SANDBOX"
      (main sys_ok ["stfu", "firefox", "a"] (State.start 0 0 [] [])).1 = some "1" ∧
    getenv "MOZ_DISABLE_GMP_SANDBOX"
      (main sys_ok ["stfu", "firefox", "a"] (State.start 0 0 [] [])).1 = some "1" :=
  (C8_launch_vector sys_ok ["stfu", "firefox", "a"] 0 0 [] [] 1 false none "firefox" ["a"]
    (main sys_ok ["stfu", "firefox", "a"] (State.start 0 0 [] [])).1 "firefox"
    ["firefox", "--no-sandbox", "a"] (by decide) (by decide) (Or.inl rfl)
    (Prod.ext rfl (by decide))).2.1 (by decide)

/-! ## C9 -/

/-- C9, as stated, fails for a browser-family target: in the run of `stfu firefox` by root
the two `setenv` of `MOZ_DISABLE_CONTENT_SANDBOX` and `MOZ_DISABLE_GMP_SANDBOX` follow the
four `unsetenv`, so the removal is not the last environment mutation before the exec. -/
theorem C9_counterexample :
    (main sys_ok ["stfu", "firefox"] (State.start 0 0 [] [])).1.trace
      = [Event.open_trunc "/tmp/stfu_fake.c", Event.write "/tmp/stfu_fake.c" 649,
         Event.system_gcc, Event.atexit_cleanup,
         Event.setenv "LD_PRELOAD" "/tmp/stfu_fake.so",
         Event.access "/home/user", Event.setenv "HOME" "/home/user",
         Event.unsetenv "SUDO_USER", Event.unsetenv "SUDO_UID", Event.unsetenv "SUDO_GID",
         Event.unsetenv "SUDO_COMMAND",
         Event.setenv "MOZ_DISABLE_CONTENT_SANDBOX" "1",
         Event.setenv "MOZ_DISABLE_GMP_SANDBOX" "1",
         Event.execvp "firefox" ["firefox", "--no-sandbox"]] ∧
    (main sys_ok ["stfu", "firefox"] (State.start 0 0 [] [])).2
      = Ending.replaced "firefox" ["firefox", "--no-sandbox"] := by
  decide

/-- C9, amended: in a run that launches the target `cmd` (the image is replaced, not through
`sudo`), the environment writes are, in this order: `setenv LD_PRELOAD`; then the `HOME`
writes (`HOME` and `STFU_CUSTOM_HOME` when a custom home was given, else `HOME` alone for a
browser-family target, else none); then the four `unsetenv` of `SUDO_USER`, `SUDO_UID`,
`SUDO_GID`, `SUDO_COMMAND`; then, for a browser-family target only, the two `setenv` of
`MOZ_DISABLE_CONTENT_SANDBOX` and `MOZ_DISABLE_GMP_SANDBOX`. The last call of the trace is
the `execvp` of the target. -/
theorem C9_env_write_order (sys : Sys) (argv : List String) (uid euid : Nat)
    (env : List (String × String)) (files : List String) (a : Nat) (sm : Bool)
    (h : Option String) (cmd : String) (rest : List String) (s' : State) (file : String)
    (args : List String)
    (hp : parse_args argv = Parsed.done a sm h) (hd : argv.drop a = cmd :: rest)
    (hg : sm = false ∨ uid = 0)
    (hrun : main sys argv (State.start uid euid env files) = (s', Ending.replaced file args)) :
    s'.trace.filter is_env_write
      = [Event.setenv "LD_PRELOAD" "/tmp/stfu_fake.so"] ++
        (match h with
         | some home => [Event.setenv "HOME" home, Event.setenv "STFU_CUSTOM_HOME" home]
         | none =>
           if is_firefox cmd = true then
             [Event.setenv "HOME" (if sys.access_home_user ≠ 0 then "/tmp" else "/home/user")]
           else []) ++
        [Event.unsetenv "SUDO_USER", Event.unsetenv "SUDO_UID", Event.unsetenv "SUDO_GID",
          Event.unsetenv "SUDO_COMMAND"] ++
        (if is_firefox cmd = true then
          [Event.setenv "MOZ_DISABLE_CONTENT_SANDBOX" "1",
           Event.setenv "MOZ_DISABLE_GMP_SANDBOX" "1"]
         else []) ∧
    s'.trace.getLast? = some (Event.execvp cmd args) := by
  have ha : a < argv.length := by
    by_contra hge
    rw [List.drop_of_length_le (by omega)] at hd
    simp at hd
  have hc : argv[a]? = some cmd := by
    have := List.getElem?_drop argv a 0
    rw [hd] at this
    simpa using this.symm
  obtain ⟨s1, hl, _, _, _, _, htr⟩ :=
    main_replaced_launch sys argv uid euid env files a sm h s' file args hp ha hg hrun
  obtain ⟨_, _, hcase⟩ := main_launch_replaced sys argv a h s1 s' cmd file args hc hl
  rcases hcase with ⟨hf, _, _, hs'⟩ | ⟨hf, _, hs'⟩
  · rw [hs']
    simp only [emit_trace, setenv_trace, launch_ready_trace, hf, if_true]
    refine ⟨?_, by cases h <;> simp⟩
    rcases htr with htr | htr <;> cases h <;> simp [htr, is_env_write, List.filter_cons]
  · rw [hs']
    simp only [emit_trace, launch_ready_trace, hf, if_false, Bool.false_eq_true]
    refine ⟨?_, by cases h <;> simp⟩
    rcases htr with htr | htr <;> cases h <;> simp [htr, is_env_write, List.filter_cons]

/-- Witness of C9: `stfu -H /tmp/x firefox` run by root. -/
theorem C9_env_write_order_witness :
    (main sys_ok ["stfu", "-H", "/tmp/x", "firefox"] (State.start 0 0 [] [])).1.trace.filter
        is_env_write
      = [Event.setenv "LD_PRELOAD" "/tmp/stfu_fake.so"] ++
        (match some "/tmp/x" with
         | some home => [Event.setenv "HOME" home, Event.setenv "STFU_CUSTOM_HOME" home]
         | none =>
           if is_firefox "firefox" = true then
             [Event.setenv "HOME"
               (if sys_ok.access_home_user ≠ 0 then "/tmp" else "/home/user")]
           else []) ++
        [Event.unsetenv "SUDO_USER", Event.unsetenv "SUDO_UID", Event.unsetenv "SUDO_GID",
          Event.unsetenv "SUDO_COMMAND"] ++
        (if is_firefox "firefox" = true then
          [Event.setenv "MOZ_DISABLE_CONTENT_SANDBOX" "1",
           Event.setenv "MOZ_DISABLE_GMP_SANDBOX" "1"]
         else []) ∧
    (main sys_ok ["stfu", "-H", "/tmp/x", "firefox"]
        (State.start 0 0 [] [])).1.trace.getLast?
      = some (Event.execvp "firefox" ["firefox", "--no-sandbox"]) :=
  C9_env_write_order sys_ok ["stfu", "-H", "/tmp/x", "firefox"] 0 0 [] [] 3 false
    (some "/tmp/x") "firefox" [] (main sys_ok ["stfu", "-H", "/tmp/x", "firefox"]
      (State.start 0 0 [] [])).1 "firefox" ["firefox", "--no-sandbox"]
    (by decide) (by decide) (Or.inl rfl) (Prod.ext rfl (by decide))


/-! ## Files and registration through the launch stage -/

@[simp]
theorem main_home_files (sys : Sys) (cmd : String) (h : Option String) (s : State) :
    (main_home sys cmd h s).files
      = match h with
        | some home => sys.mkdir_files home s.files
        | none => s.files := by
  unfold main_home
  cases h with
  | some home => rfl
  | none => by_cases hf : is_firefox cmd = true <;> simp [hf]

@[simp]
theorem main_home_registered (sys : Sys) (cmd : String) (h : Option String) (s : State) :
    (main_home sys cmd h s).cleanup_registered = s.cleanup_registered := by
  unfold main_home
  cases h with
  | some home => rfl
  | none => by_cases hf : is_firefox cmd = true <;> simp [hf]

@[simp]
theorem main_unset_files (s : State) : (main_unset s).files = s.files := rfl

@[simp]
theorem main_unset_registered (s : State) :
    (main_unset s).cleanup_registered = s.cleanup_registered := rfl

@[simp]
theorem launch_ready_registered (sys : Sys) (cmd : String) (h : Option String) (s : State) :
    (launch_ready sys cmd h s).cleanup_registered = true := by
  simp [launch_ready]

/-- With `argc + 1` iterations allowed the loop of `main` always comes to an end. -/
theorem parse_args_result (argv : List String) : parse_args argv ≠ Parsed.out_of_fuel :=
  parse_loop_result argv (argv.length + 1) 1 false none (by omega)

theorem main_launch_ends (sys : Sys) (argv : List String) (a : Nat) (h : Option String)
    (s : State) (cmd : String) (hc : argv[a]? = some cmd) :
    (main_launch sys argv a h s).2 ≠ Ending.fault ∧
    (main_launch sys argv a h s).2 ≠ Ending.out_of_fuel := by
  by_cases hok : sys.open_ok = true ∧ sys.written = (fake_lib_code.utf8ByteSize : Int)
      ∧ sys.gcc_status = 0
  · rw [main_launch_ok sys argv a h s cmd hc hok.1 hok.2.1 hok.2.2,
      main_exec_eq sys argv a cmd _ hc]
    split_ifs <;> simp
  · rw [main_launch_fail sys argv a h s hok]
    simp

/-- No run of `main` leaves an allocation or runs out of loop iterations: every run returns
from `main`, calls `_exit`, or replaces the process image. -/
theorem main_ends (sys : Sys) (argv : List String) (uid euid : Nat)
    (env : List (String × String)) (files : List String) :
    (main sys argv (State.start uid euid env files)).2 ≠ Ending.fault ∧
    (main sys argv (State.start uid euid env files)).2 ≠ Ending.out_of_fuel := by
  cases hp : parse_args argv with
  | help => simp [main, hp]
  | home_arg_error => simp [main, hp]
  | out_of_fuel => exact absurd hp (parse_args_result argv)
  | done a sm h =>
    by_cases ha : a < argv.length
    · obtain ⟨cmd, hc⟩ : ∃ cmd, argv[a]? = some cmd := ⟨argv[a], List.getElem?_eq_getElem ha⟩
      by_cases hg : sm = false ∨ uid = 0
      · rw [main_gate sys argv uid euid env files a sm h hp ha hg]
        split_ifs
        · exact main_launch_ends sys argv a h _ cmd hc
        · exact main_launch_ends sys argv a h _ cmd hc
        · simp
        · simp
      · have hs : sm = true ∧ uid ≠ 0 := by
          cases sm <;> simp_all
        obtain ⟨argv0, h0⟩ := argv0_of_lt argv a ha
        rw [main_of_done sys argv _ a sm h hp ha]
        have hu' : (State.start uid euid env files).uid ≠ 0 := hs.2
        simp only [hs.1, hu', true_and, ne_eq, not_false_eq_true, if_true, main_sudo,
          sudo_args_eq argv a argv0 h0 (parse_args_done_pos argv a sm h hp) (by omega), execvp]
        by_cases hm : sys.malloc_ok = true
        · simp only [hm, not_true_eq_false, if_false]
          cases sys.execvp_ok "sudo" _ <;> simp
        · simp [hm]
    · have ha' : argv.length ≤ a := by omega
      simp [main, hp, ha']


/-! ## The shim build and the launch -/

/-- A launch stage whose shim build fails stops there; one whose shim build succeeds makes
the calls of `create_fake_lib`, `atexit` and `setenv("LD_PRELOAD", ...)` first. -/
theorem main_launch_order (sys : Sys) (argv : List String) (a : Nat) (h : Option String)
    (s : State) (cmd : String) (hc : argv[a]? = some cmd) :
    (¬ (sys.open_ok = true ∧ sys.written = (fake_lib_code.utf8ByteSize : Int)
        ∧ sys.gcc_status = 0) →
      (main_launch sys argv a h s).2 = Ending.exited_now 1 ∧
      (main_launch sys argv a h s).1.cleanup_registered = s.cleanup_registered ∧
      (main_launch sys argv a h s).1.env = s.env ∧
      ∃ evs, (main_launch sys argv a h s).1.trace = s.trace ++ evs ∧
        ∀ e ∈ evs, e = Event.open_trunc "/tmp/stfu_fake.c" ∨
          e = Event.write "/tmp/stfu_fake.c" sys.written ∨ e = Event.system_gcc ∨
          e = Event.puts sys.t.error_unknown) ∧
    ((sys.open_ok = true ∧ sys.written = (fake_lib_code.utf8ByteSize : Int)
        ∧ sys.gcc_status = 0) →
      ∃ l2, (main_launch sys argv a h s).1.trace
        = (s.trace ++ [Event.open_trunc "/tmp/stfu_fake.c",
            Event.write "/tmp/stfu_fake.c" sys.written, Event.system_gcc,
            Event.atexit_cleanup]) ++ Event.setenv "LD_PRELOAD" "/tmp/stfu_fake.so" :: l2) := by
  refine ⟨fun hok => ?_, fun hok => ?_⟩
  · obtain ⟨s', hs', hreg, henv, _, _, evs, he, hev⟩ := create_fake_lib_fail sys s hok
    rw [main_launch_fail sys argv a h s hok, hs']
    refine ⟨rfl, hreg, henv, Event.open_trunc "/tmp/stfu_fake.c" :: evs, he, ?_⟩
    intro e hmem
    rcases List.mem_cons.mp hmem with e1 | e1
    · exact Or.inl e1
    · exact Or.inr (hev e e1)
  · rw [main_launch_ok sys argv a h s cmd hc hok.1 hok.2.1 hok.2.2]
    obtain ⟨evs, he⟩ := main_exec_trace sys argv a cmd (launch_ready sys cmd h s) hc
    rw [he, launch_ready_trace]
    exact ⟨_, by simp only [List.append_assoc, List.cons_append, List.nil_append]; rfl⟩

/-! ## C11 -/

/-- C11: let a run find a target command and not take the re-exec through `sudo`. If it
reaches `create_fake_lib` (real uid 0, or effective uid 0 and a successful `setuid(0)`) and
the `open` fails, or `write` returns anything but the length of the embedded source, or
the compiler returns nonzero, the run ends there with `_exit(1)`: `cleanup` is not
registered, the environment is that of the start (no `setenv` of `LD_PRELOAD`), and no
`execvp` is in the trace. Conversely, if any `execvp` is in the trace, the three steps of
`create_fake_lib` succeeded and the trace is `l1`, `setenv("LD_PRELOAD",
"/tmp/stfu_fake.so")`, `l2` with the compiler run in `l1` and no `execvp` in `l1`. -/
theorem C11_shim_before_launch (sys : Sys) (argv : List String) (uid euid : Nat)
    (env : List (String × String)) (files : List String) (a : Nat) (sm : Bool)
    (h : Option String) (hp : parse_args argv = Parsed.done a sm h) (ha : a < argv.length)
    (hg : sm = false ∨ uid = 0) :
    ((uid = 0 ∨ (euid = 0 ∧ sys.setuid_ok = true)) →
      ¬ (sys.open_ok = true ∧ sys.written = (fake_lib_code.utf8ByteSize : Int)
        ∧ sys.gcc_status = 0) →
      (main sys argv (State.start uid euid env files)).2 = Ending.exited_now 1 ∧
      (main sys argv (State.start uid euid env files)).1.cleanup_registered = false ∧
      Event.atexit_cleanup ∉ (main sys argv (State.start uid euid env files)).1.trace ∧
      (main sys argv (State.start uid euid env files)).1.env = env ∧
      (∀ v, Event.setenv "LD_PRELOAD" v
        ∉ (main sys argv (State.start uid euid env files)).1.trace) ∧
      ∀ file args, Event.execvp file args
        ∉ (main sys argv (State.start uid euid env files)).1.trace) ∧
    (∀ file args,
      Event.execvp file args ∈ (main sys argv (State.start uid euid env files)).1.trace →
      (sys.open_ok = true ∧ sys.written = (fake_lib_code.utf8ByteSize : Int)
        ∧ sys.gcc_status = 0) ∧
      ∃ l1 l2, (main sys argv (State.start uid euid env files)).1.trace
          = l1 ++ Event.setenv "LD_PRELOAD" "/tmp/stfu_fake.so" :: l2 ∧
        Event.system_gcc ∈ l1 ∧ ∀ file' args', Event.execvp file' args' ∉ l1) := by
  obtain ⟨cmd, hc⟩ : ∃ cmd, argv[a]? = some cmd := ⟨argv[a], List.getElem?_eq_getElem ha⟩
  -- the launch stage from either state in which the gate enters it
  have key : ∀ s : State, (s.trace = [] ∨ s.trace = [Event.setuid 0]) →
      s.cleanup_registered = false → s.env = env →
      (¬ (sys.open_ok = true ∧ sys.written = (fake_lib_code.utf8ByteSize : Int)
          ∧ sys.gcc_status = 0) →
        (main_launch sys argv a h s).2 = Ending.exited_now 1 ∧
        (main_launch sys argv a h s).1.cleanup_registered = false ∧
        Event.atexit_cleanup ∉ (main_launch sys argv a h s).1.trace ∧
        (main_launch sys argv a h s).1.env = env ∧
        (∀ v, Event.setenv "LD_PRELOAD" v ∉ (main_launch sys argv a h s).1.trace) ∧
        ∀ file args, Event.execvp file args ∉ (main_launch sys argv a h s).1.trace) ∧
      (∀ file args, Event.execvp file args ∈ (main_launch sys argv a h s).1.trace →
        (sys.open_ok = true ∧ sys.written = (fake_lib_code.utf8ByteSize : Int)
          ∧ sys.gcc_status = 0) ∧
        ∃ l1 l2, (main_launch sys argv a h s).1.trace
            = l1 ++ Event.setenv "LD_PRELOAD" "/tmp/stfu_fake.so" :: l2 ∧
          Event.system_gcc ∈ l1 ∧ ∀ file' args', Event.execvp file' args' ∉ l1) := by
    intro s htr hreg henv
    obtain ⟨hfail, hgood⟩ := main_launch_order sys argv a h s cmd hc
    have hnone : ¬ (sys.open_ok = true ∧ sys.written = (fake_lib_code.utf8ByteSize : Int)
        ∧ sys.gcc_status = 0) →
        ∀ e ∈ (main_launch sys argv a h s).1.trace, e = Event.setuid 0 ∨
          e = Event.open_trunc "/tmp/stfu_fake.c" ∨
          e = Event.write "/tmp/stfu_fake.c" sys.written ∨ e = Event.system_gcc ∨
          e = Event.puts sys.t.error_unknown := by
      intro hok e hmem
      obtain ⟨_, _, _, evs, he, hev⟩ := hfail hok
      rw [he] at hmem
      rcases List.mem_append.mp hmem with h1 | h1
      · rcases htr with htr | htr
        · rw [htr] at h1; simp at h1
        · rw [htr] at h1; exact Or.inl (by simpa using h1)
      · exact Or.inr (hev e h1)
    refine ⟨fun hok => ?_, fun file args hmem => ?_⟩
    · obtain ⟨hend, hr, he, _⟩ := hfail hok
      refine ⟨hend, hr.trans hreg, ?_, he.trans henv, ?_, ?_⟩
      · intro hmem
        rcases hnone hok _ hmem with e | e | e | e | e <;> simp at e
      · intro v hmem
        rcases hnone hok _ hmem with e | e | e | e | e <;> simp at e
      · intro file args hmem
        rcases hnone hok _ hmem with e | e | e | e | e <;> simp at e
    · by_cases hok : sys.open_ok = true ∧ sys.written = (fake_lib_code.utf8ByteSize : Int)
          ∧ sys.gcc_status = 0
      · obtain ⟨l2, hl2⟩ := hgood hok
        refine ⟨hok, _, l2, hl2, by simp, ?_⟩
        intro file' args' hm
        rcases htr with htr | htr <;> simp [htr] at hm
      · rcases hnone hok _ hmem with e | e | e | e | e <;> simp at e
  rw [main_gate sys argv uid euid env files a sm h hp ha hg]
  split_ifs with h1 h2 h3
  · obtain ⟨k1, k2⟩ := key (State.start 0 euid env files) (Or.inl rfl) rfl rfl
    exact ⟨fun _ hok => k1 hok, k2⟩
  · obtain ⟨k1, k2⟩ := key
      { uid := 0, euid := 0, env := env, files := files, cleanup_registered := false,
        trace := [Event.setuid 0] } (Or.inr rfl) rfl rfl
    exact ⟨fun _ hok => k1 hok, k2⟩
  · refine ⟨fun hr _ => ?_, fun file args hmem => ?_⟩
    · rcases hr with hr | hr
      · exact absurd hr h1
      · exact absurd hr.2 h3
    · simp at hmem
  · refine ⟨fun hr _ => ?_, fun file args hmem => ?_⟩
    · rcases hr with hr | hr
      · exact absurd hr h1
      · exact absurd hr.1 h2
    · simp at hmem

/-- Witness of C11: `stfu ls` run by root, once with a failing compiler run and once on a
system where every call succeeds. -/
theorem C11_shim_before_launch_witness :
    ((main sys_gcc_fails ["stfu", "ls"] (State.start 0 0 [] [])).2 = Ending.exited_now 1 ∧
      (main sys_gcc_fails ["stfu", "ls"] (State.start 0 0 [] [])).1.cleanup_registered
        = false ∧
      Event.atexit_cleanup ∉ (main sys_gcc_fails ["stfu", "ls"] (State.start 0 0 [] [])).1.trace ∧
      (main sys_gcc_fails ["stfu", "ls"] (State.start 0 0 [] [])).1.env = [] ∧
      (∀ v, Event.setenv "LD_PRELOAD" v
        ∉ (main sys_gcc_fails ["stfu", "ls"] (State.start 0 0 [] [])).1.trace) ∧
      ∀ file args, Event.execvp file args
        ∉ (main sys_gcc_fails ["stfu", "ls"] (State.start 0 0 [] [])).1.trace) ∧
    ((sys_ok.open_ok = true ∧ sys_ok.written = (fake_lib_code.utf8ByteSize : Int)
        ∧ sys_ok.gcc_status = 0) ∧
      ∃ l1 l2, (main sys_ok ["stfu", "ls"] (State.start 0 0 [] [])).1.trace
          = l1 ++ Event.setenv "LD_PRELOAD" "/tmp/stfu_fake.so" :: l2 ∧
        Event.system_gcc ∈ l1 ∧ ∀ file' args', Event.execvp file' args' ∉ l1) :=
  ⟨(C11_shim_before_launch sys_gcc_fails ["stfu", "ls"] 0 0 [] [] 1 false none (by decide)
      (by decide) (Or.inl rfl)).1 (Or.inl rfl) (by decide),
   (C11_shim_before_launch sys_ok ["stfu", "ls"] 0 0 [] [] 1 false none (by decide)
      (by decide) (Or.inl rfl)).2 "ls" ["ls"] (by decide)⟩


/-! ## The custom home -/

theorem flags_home_append (fs gs : List Flag) (h : Option String) :
    flags_home (fs ++ gs) h = flags_home gs (flags_home fs h) := by
  induction fs generalizing h with
  | nil => rfl
  | cons f fs ih =>
    rcases f with long | ⟨long, path⟩
    · simpa [flags_home] using ih h
    · simpa [flags_home] using ih (some path)

theorem flags_home_escalate (gs : List Flag) (h : Option String)
    (hgs : ∀ g ∈ gs, ∃ long, g = Flag.escalate long) : flags_home gs h = h := by
  induction gs with
  | nil => rfl
  | cons g gs ih =>
    obtain ⟨long, rfl⟩ := hgs g (List.mem_cons_self _ _)
    simpa [flags_home] using ih (fun g' hg' => hgs g' (List.mem_cons_of_mem _ hg'))

/-- The operand of the last `-H` / `--home` of a sequence of flags is its custom home. -/
theorem flags_home_last (fs gs : List Flag) (long : Bool) (path : String)
    (h : Option String) (hgs : ∀ g ∈ gs, ∃ l, g = Flag.escalate l) :
    flags_home (fs ++ Flag.home long path :: gs) h = some path := by
  rw [flags_home_append]
  simpa [flags_home] using flags_home_escalate gs (some path) hgs

/-- The result of the parser on a program name, recognised flags, at most one unrecognised
token, and a target. -/
theorem parse_args_target (prog : String) (fs : List Flag) (skipped : List String)
    (target : String) (rest : List String)
    (hs : (skipped = [] ∧ char0 target ≠ '-') ∨
      (∃ x, skipped = [x] ∧ char0 x = '-' ∧ x ∉ known_flags)) :
    parse_args (prog :: (flag_tokens fs ++ (skipped ++ target :: rest)))
      = Parsed.done (1 + (flag_tokens fs).length + skipped.length)
          (flags_sudo fs false) (flags_home fs none) := by
  rcases hs with ⟨rfl, ht⟩ | ⟨x, rfl, hc, hx⟩
  · rw [parse_args_flags]
    exact parse_step_target _ _ _ _ target
      (by simpa using getElem?_after_flags prog fs (target :: rest) 0) ht
  · rw [parse_args_flags]
    exact parse_step_unknown _ _ _ _ x
      (by simpa using getElem?_after_flags prog fs (x :: target :: rest) 0) hc hx

theorem getenv_launch_ready_preload (sys : Sys) (cmd : String) (h : Option String)
    (s : State) :
    getenv "LD_PRELOAD" (launch_ready sys cmd h s) = some "/tmp/stfu_fake.so" := by
  rw [launch_ready, getenv_main_unset_ne _ _ (by decide) (by decide) (by decide) (by decide),
    getenv_main_home_ne _ _ _ _ _ (by decide) (by decide), getenv_setenv_self]

theorem getenv_launch_ready_home (sys : Sys) (cmd home : String) (s : State) :
    getenv "HOME" (launch_ready sys cmd (some home) s) = some home ∧
    getenv "STFU_CUSTOM_HOME" (launch_ready sys cmd (some home) s) = some home := by
  constructor
  · rw [launch_ready, getenv_main_unset_ne _ _ (by decide) (by decide) (by decide)
      (by decide)]
    simp only [main_home]
    rw [getenv_setenv_ne _ _ _ _ (by decide), getenv_setenv_self]
  · rw [launch_ready, getenv_main_unset_ne _ _ (by decide) (by decide) (by decide)
      (by decide)]
    simp only [main_home]
    rw [getenv_setenv_self]

theorem getenv_launch_ready_no_home (sys : Sys) (cmd : String) (s : State) :
    getenv "STFU_CUSTOM_HOME" (launch_ready sys cmd none s) = getenv "STFU_CUSTOM_HOME" s := by
  rw [launch_ready, getenv_main_unset_ne _ _ (by decide) (by decide) (by decide) (by decide)]
  have e : getenv "STFU_CUSTOM_HOME" (main_home sys cmd none
      (setenv "LD_PRELOAD" "/tmp/stfu_fake.so" (atexit_cleanup (shim_built sys s))))
      = getenv "STFU_CUSTOM_HOME"
          (setenv "LD_PRELOAD" "/tmp/stfu_fake.so" (atexit_cleanup (shim_built sys s))) := by
    unfold main_home
    by_cases hf : is_firefox cmd = true
    · simp only [hf, if_true]
      rw [getenv_setenv_ne _ _ _ _ (by decide), getenv_emit]
    · simp only [hf, if_false, Bool.false_eq_true]
  rw [e, getenv_setenv_ne _ _ _ _ (by decide), getenv_atexit_cleanup, getenv_shim_built]

/-- The values a variable has when the launch stage replaces the image: those of
`launch_ready`, unless the variable is one of the two `MOZ_` names. -/
theorem getenv_at_exec (name : String) (sys : Sys) (argv : List String) (a : Nat)
    (h : Option String) (s s' : State) (cmd file : String) (args : List String)
    (hc : argv[a]? = some cmd)
    (hrun : main_launch sys argv a h s = (s', Ending.replaced file args))
    (h1 : name ≠ "MOZ_DISABLE_CONTENT_SANDBOX") (h2 : name ≠ "MOZ_DISABLE_GMP_SANDBOX") :
    getenv name s' = getenv name (launch_ready sys cmd h s) := by
  obtain ⟨_, _, hcase⟩ := main_launch_replaced sys argv a h s s' cmd file args hc hrun
  rcases hcase with ⟨_, _, _, hs'⟩ | ⟨_, _, hs'⟩
  · rw [hs', getenv_emit, getenv_setenv_ne _ _ _ _ h2, getenv_setenv_ne _ _ _ _ h1]
  · rw [hs', getenv_emit]


/-! ## C12 -/

/-- C12: let a run launch the target (the image is replaced, not through `sudo`), whatever
`mkdir` returned and whether or not the target is browser-family. At the exec `LD_PRELOAD`
is `/tmp/stfu_fake.so`. If the parser left a custom home `home`, `HOME` and
`STFU_CUSTOM_HOME` are both `home`; if it left none, `STFU_CUSTOM_HOME` has the value it
had at the start and no `setenv` of it is in the trace. The custom home is the operand of
the last `-H` / `--home` among the flags before the target. -/
theorem C12_custom_home_env (sys : Sys) (argv : List String) (uid euid : Nat)
    (env : List (String × String)) (files : List String) (a : Nat) (sm : Bool)
    (h : Option String) (cmd : String) (rest : List String) (s' : State) (file : String)
    (args : List String)
    (hp : parse_args argv = Parsed.done a sm h) (hd : argv.drop a = cmd :: rest)
    (hg : sm = false ∨ uid = 0)
    (hrun : main sys argv (State.start uid euid env files) = (s', Ending.replaced file args)) :
    getenv "LD_PRELOAD" s' = some "/tmp/stfu_fake.so" ∧
    (∀ home, h = some home →
      getenv "HOME" s' = some home ∧ getenv "STFU_CUSTOM_HOME" s' = some home) ∧
    (h = none →
      getenv "STFU_CUSTOM_HOME" s'
        = getenv "STFU_CUSTOM_HOME" (State.start uid euid env files) ∧
      ∀ v, Event.setenv "STFU_CUSTOM_HOME" v ∉ s'.trace) ∧
    (∀ (prog : String) (fs gs : List Flag) (long : Bool) (path : String)
        (skipped : List String) (target : String) (rest' : List String),
      (∀ g ∈ gs, ∃ l, g = Flag.escalate l) →
      ((skipped = [] ∧ char0 target ≠ '-') ∨
        (∃ x, skipped = [x] ∧ char0 x = '-' ∧ x ∉ known_flags)) →
      argv = prog :: (flag_tokens (fs ++ Flag.home long path :: gs)
        ++ (skipped ++ target :: rest')) →
      h = some path) := by
  have ha : a < argv.length := by
    by_contra hge
    rw [List.drop_of_length_le (by omega)] at hd
    simp at hd
  have hc : argv[a]? = some cmd := by
    have := List.getElem?_drop argv a 0
    rw [hd] at this
    simpa using this.symm
  obtain ⟨s1, hl, henv, _, _, _, htr⟩ :=
    main_replaced_launch sys argv uid euid env files a sm h s' file args hp ha hg hrun
  refine ⟨?_, ?_, ?_, ?_⟩
  · rw [getenv_at_exec "LD_PRELOAD" sys argv a h s1 s' cmd file args hc hl (by decide)
      (by decide), getenv_launch_ready_preload]
  · intro home hh
    subst hh
    rw [getenv_at_exec "HOME" sys argv a _ s1 s' cmd file args hc hl (by decide) (by decide),
      getenv_at_exec "STFU_CUSTOM_HOME" sys argv a _ s1 s' cmd file args hc hl (by decide)
        (by decide)]
    exact getenv_launch_ready_home sys cmd home s1
  · intro hh
    subst hh
    refine ⟨?_, ?_⟩
    · rw [getenv_at_exec "STFU_CUSTOM_HOME" sys argv a _ s1 s' cmd file args hc hl (by decide)
        (by decide), getenv_launch_ready_no_home]
      simp only [getenv, henv, State.start]
    · intro v
      obtain ⟨_, _, hcase⟩ := main_launch_replaced sys argv a none s1 s' cmd file args hc hl
      rcases hcase with ⟨hf, _, _, hs'⟩ | ⟨hf, _, hs'⟩
      · rw [hs']
        simp only [emit_trace, setenv_trace, launch_ready_trace, hf, if_true]
        rcases htr with htr | htr <;> simp [htr]
      · rw [hs']
        simp only [emit_trace, launch_ready_trace, hf, if_false, Bool.false_eq_true]
        rcases htr with htr | htr <;> simp [htr]
  · intro prog fs gs long path skipped target rest' hgs hs hargv
    have := parse_args_target prog (fs ++ Flag.home long path :: gs) skipped target rest' hs
    rw [← hargv, hp, flags_home_last fs gs long path none hgs] at this
    exact (Parsed.done.inj this).2.2

/-- Witness of C12: `stfu -H /a --home /tmp/x firefox` run by root. -/
theorem C12_custom_home_env_witness :
    getenv "LD_PRELOAD"
        (main sys_ok ["stfu", "-H", "/a", "--home", "/tmp/x", "firefox"]
          (State.start 0 0 [] [])).1 = some "/tmp/stfu_fake.so" ∧
    getenv "HOME"
        (main sys_ok ["stfu", "-H", "/a", "--home", "/tmp/x", "firefox"]
          (State.start 0 0 [] [])).1 = some "/tmp/x" ∧
    getenv "STFU_CUSTOM_HOME"
        (main sys_ok ["stfu", "-H", "/a", "--home", "/tmp/x", "firefox"]
          (State.start 0 0 [] [])).1 = some "/tmp/x" :=
  ⟨(C12_custom_home_env sys_ok ["stfu", "-H", "/a", "--home", "/tmp/x", "firefox"] 0 0 [] []
      5 false (some "/tmp/x") "firefox" []
      (main sys_ok ["stfu", "-H", "/a", "--home", "/tmp/x", "firefox"]
        (State.start 0 0 [] [])).1
      "firefox" ["firefox", "--no-sandbox"] (by decide) (by decide) (Or.inl rfl)
      (Prod.ext rfl (by decide))).1,
   (C12_custom_home_env sys_ok ["stfu", "-H", "/a", "--home", "/tmp/x", "firefox"] 0 0 [] []
      5 false (some "/tmp/x") "firefox" []
      (main sys_ok ["stfu", "-H", "/a", "--home", "/tmp/x", "firefox"]
        (State.start 0 0 [] [])).1
      "firefox" ["firefox", "--no-sandbox"] (by decide) (by decide) (Or.inl rfl)
      (Prod.ext rfl (by decide))).2.1 "/tmp/x" rfl⟩


/-! ## The re-exec round trip -/

theorem filter_flag_tokens (fs : List Flag)
    (hk : ∀ long path, Flag.home long path ∈ fs → is_kept path = true) :
    (flag_tokens fs).filter is_kept = flag_tokens (strip_escalation fs) := by
  induction fs with
  | nil => rfl
  | cons f fs ih =>
    have ih' := ih (fun long path hm => hk long path (List.mem_cons_of_mem _ hm))
    rcases f with long | ⟨long, path⟩
    · cases long
      · simp only [flag_tokens, Flag.tokens, strip_escalation, List.filter_append, ih']
        rfl
      · simp only [flag_tokens, Flag.tokens, strip_escalation, List.filter_append, ih']
        rfl
    · have hp : is_kept path = true := hk long path (List.mem_cons_self _ _)
      cases long
      · simp only [flag_tokens, Flag.tokens, strip_escalation, List.filter_append, ih']
        rw [List.filter_cons_of_pos (by decide), List.filter_cons_of_pos hp]
        rfl
      · simp only [flag_tokens, Flag.tokens, strip_escalation, List.filter_append, ih']
        rw [List.filter_cons_of_pos (by decide), List.filter_cons_of_pos hp]
        rfl

theorem filter_skipped (skipped : List String) (target : String)
    (hs : (skipped = [] ∧ char0 target ≠ '-') ∨
      (∃ x, skipped = [x] ∧ char0 x = '-' ∧ x ∉ known_flags)) :
    skipped.filter is_kept = skipped := by
  rcases hs with ⟨rfl, _⟩ | ⟨x, rfl, _, hx⟩
  · rfl
  · simp only [known_flags, List.mem_cons, List.mem_singleton, List.not_mem_nil, or_false,
      not_or] at hx
    have : is_kept x = true := by simp [is_kept, hx.2.2.2.2.1, hx.2.2.2.2.2]
    rw [List.filter_cons_of_pos this]
    rfl

theorem flags_sudo_strip (fs : List Flag) (sm : Bool) :
    flags_sudo (strip_escalation fs) sm = sm := by
  induction fs with
  | nil => rfl
  | cons f fs ih =>
    rcases f with long | ⟨long, path⟩
    · simpa [strip_escalation] using ih
    · simpa [strip_escalation, flags_sudo] using ih

theorem flags_home_strip (fs : List Flag) (h : Option String) :
    flags_home (strip_escalation fs) h = flags_home fs h := by
  induction fs generalizing h with
  | nil => rfl
  | cons f fs ih =>
    rcases f with long | ⟨long, path⟩
    · simpa [strip_escalation, flags_home] using ih h
    · simpa [strip_escalation, flags_home] using ih (some path)

/-- The round trip through `sudo` when no operand of `-H` / `--home` is spelled `-s` or
`--sudo`: the rebuilt vector is `sudo`, then the original list without its escalation flags,
and the parser reads from it the same custom home and the same target and arguments, with
the escalation flag clear. -/
theorem round_trip_of_kept_operands (prog : String) (fs : List Flag)
    (skipped : List String) (target : String) (rest : List String)
    (hs : (skipped = [] ∧ char0 target ≠ '-') ∨
      (∃ x, skipped = [x] ∧ char0 x = '-' ∧ x ∉ known_flags))
    (hk : ∀ long path, Flag.home long path ∈ fs → is_kept path = true) :
    sudo_args (prog :: (flag_tokens fs ++ (skipped ++ target :: rest)))
        (1 + (flag_tokens fs).length + skipped.length)
      = some ("sudo" :: prog ::
          (flag_tokens (strip_escalation fs) ++ (skipped ++ target :: rest))) ∧
    parse_args (prog :: (flag_tokens (strip_escalation fs) ++ (skipped ++ target :: rest)))
      = Parsed.done (1 + (flag_tokens (strip_escalation fs)).length + skipped.length) false
          (flags_home fs none) ∧
    (prog :: (flag_tokens (strip_escalation fs) ++ (skipped ++ target :: rest))).drop
        (1 + (flag_tokens (strip_escalation fs)).length + skipped.length) = target :: rest := by
  have hdrop : ∀ gs : List Flag,
      (prog :: (flag_tokens gs ++ (skipped ++ target :: rest))).drop
        (1 + (flag_tokens gs).length + skipped.length) = target :: rest := by
    intro gs
    have := drop_after_flags prog gs (skipped ++ target :: rest)
    rw [← List.drop_drop, this, List.drop_left]
  refine ⟨?_, ?_, hdrop _⟩
  · rw [sudo_args_eq _ _ prog (by simp) (by omega) (by simp; omega), hdrop fs]
    have htake : ((prog :: (flag_tokens fs ++ (skipped ++ target :: rest))).drop 1).take
        (1 + (flag_tokens fs).length + skipped.length - 1) = flag_tokens fs ++ skipped := by
      have e : 1 + (flag_tokens fs).length + skipped.length - 1
          = (flag_tokens fs ++ skipped).length := by
        rw [List.length_append]; omega
      rw [e, List.drop_one, List.tail_cons, ← List.append_assoc, List.take_left]
    rw [htake, List.filter_append, filter_flag_tokens fs hk, filter_skipped skipped target hs,
      List.append_assoc]
  · have := parse_args_target prog (strip_escalation fs) skipped target rest hs
    rw [flags_sudo_strip, flags_home_strip] at this
    exact this

/-! ## C13 -/

/-- C13 fails on the code: for `stfu --sudo --home --sudo app x` the parser sets the
escalation flag, takes the second `--sudo` as the custom home and `app x` as the target
vector; the rebuilt list is `sudo stfu --home app x`, and the parser run on what the
re-executed program receives yields the custom home `app` and the target vector `x`. Run by
root, the original invocation launches `app x`, the re-executed one launches `x`. -/
theorem C13_round_trip_broken :
    parse_args ["stfu", "--sudo", "--home", "--sudo", "app", "x"]
      = Parsed.done 4 true (some "--sudo") ∧
    ["stfu", "--sudo", "--home", "--sudo", "app", "x"].drop 4 = ["app", "x"] ∧
    sudo_args ["stfu", "--sudo", "--home", "--sudo", "app", "x"] 4
      = some ("sudo" :: ["stfu", "--home", "app", "x"]) ∧
    parse_args ["stfu", "--home", "app", "x"] = Parsed.done 3 false (some "app") ∧
    ["stfu", "--home", "app", "x"].drop 3 = ["x"] ∧
    (main sys_ok ["stfu", "--sudo", "--home", "--sudo", "app", "x"]
        (State.start 0 0 [] [])).2 = Ending.replaced "app" ["app", "x"] ∧
    (main sys_ok ["stfu", "--home", "app", "x"] (State.start 0 0 [] [])).2
      = Ending.replaced "x" ["x"] := by
  decide


/-! ## The operand of `-H` / `--home` -/

theorem flag_tokens_append (fs gs : List Flag) :
    flag_tokens (fs ++ gs) = flag_tokens fs ++ flag_tokens gs := by
  induction fs with
  | nil => rfl
  | cons f fs ih => simp [flag_tokens, ih]

theorem flags_sudo_append (fs gs : List Flag) (sm : Bool) :
    flags_sudo (fs ++ gs) sm = flags_sudo gs (flags_sudo fs sm) := by
  induction fs generalizing sm with
  | nil => rfl
  | cons f fs ih =>
    rcases f with long | ⟨long, path⟩
    · simpa [flags_sudo] using ih true
    · simpa [flags_sudo] using ih sm

/-- The parser on recognised flags, `-H` or `--home` with an operand `v` of any text, more
recognised flags, at most one unrecognised token, and a target. -/
theorem parse_args_home_operand (prog : String) (fs : List Flag) (long : Bool) (v : String)
    (gs : List Flag) (skipped : List String) (target : String) (rest : List String)
    (hs : (skipped = [] ∧ char0 target ≠ '-') ∨
      (∃ x, skipped = [x] ∧ char0 x = '-' ∧ x ∉ known_flags)) :
    parse_args (prog :: (flag_tokens fs ++ (if long = true then "--home" else "-H") :: v ::
        (flag_tokens gs ++ (skipped ++ target :: rest))))
      = Parsed.done (1 + (flag_tokens fs).length + 2 + (flag_tokens gs).length
          + skipped.length) (flags_sudo gs (flags_sudo fs false)) (flags_home gs (some v)) := by
  have := parse_args_target prog (fs ++ Flag.home long v :: gs) skipped target rest hs
  have ht : (Flag.home long v).tokens = [if long = true then "--home" else "-H", v] := by
    cases long <;> rfl
  rw [flag_tokens_append, flags_sudo_append, flags_home_append] at this
  simp only [flag_tokens, ht, flags_sudo, flags_home, List.length_append, List.length_cons,
    List.length_nil, List.append_assoc, List.cons_append, List.nil_append] at this
  rw [this]
  congr 1
  omega

/-- The parser on recognised flags followed by `-H` or `--home` and an operand `v` that is
the last element of `argv`. -/
theorem parse_args_home_last (prog : String) (fs : List Flag) (x v : String)
    (hx : x = "-H" ∨ x = "--home") :
    parse_args (prog :: (flag_tokens fs ++ [x, v]))
      = Parsed.done (1 + (flag_tokens fs).length + 2) (flags_sudo fs false) (some v) := by
  rw [parse_args_flags]
  have h0 := getElem?_after_flags prog fs [x, v] 0
  have h1 := getElem?_after_flags prog fs [x, v] 1
  have h2 := getElem?_after_flags prog fs [x, v] 2
  rw [parse_step_home _ _ _ _ x v (by simpa using h0) hx (by simpa using h1)]
  exact parse_step_end _ _ _ _ (by simpa using h2)

/-! ## C7 -/

/-- C7: when the tokens after the program name are a sequence of recognised flags followed
by `-H` or `--home` as the last element of `argv`, the whole run is
`puts(t->error_home_arg)` and `return 1`, whatever the uids: nothing else is called, and
the environment and the files are those of the start. When a token `v` follows instead,
whatever its text, `v` is the custom home and is not read as a flag: if more recognised
flags, at most one unrecognised token and a target follow `v`, parsing ends at the target
with `sudo_mode` set by the flags other than `v` and `custom_home` equal to `v` unless a
later `-H` / `--home` replaces it; if `v` is the last element, parsing ends behind it with
`custom_home = v` and no target. -/
theorem C7_home_operand (sys : Sys) (prog : String) (fs : List Flag) (long : Bool)
    (uid euid : Nat) (env : List (String × String)) (files : List String) (v : String)
    (gs : List Flag) (skipped : List String) (target : String) (rest : List String)
    (hs : (skipped = [] ∧ char0 target ≠ '-') ∨
      (∃ x, skipped = [x] ∧ char0 x = '-' ∧ x ∉ known_flags)) :
    main sys (prog :: (flag_tokens fs ++ [if long = true then "--home" else "-H"]))
        (State.start uid euid env files)
      = ({ uid := uid, euid := euid, env := env, files := files, cleanup_registered := false,
           trace := [Event.puts sys.t.error_home_arg] },
         Ending.exited 1) ∧
    parse_args (prog :: (flag_tokens fs ++ (if long = true then "--home" else "-H") :: v ::
        (flag_tokens gs ++ (skipped ++ target :: rest))))
      = Parsed.done (1 + (flag_tokens fs).length + 2 + (flag_tokens gs).length
          + skipped.length) (flags_sudo gs (flags_sudo fs false)) (flags_home gs (some v)) ∧
    parse_args (prog :: (flag_tokens fs ++ [if long = true then "--home" else "-H", v]))
      = Parsed.done (1 + (flag_tokens fs).length + 2) (flags_sudo fs false) (some v) := by
  refine ⟨?_, parse_args_home_operand prog fs long v gs skipped target rest hs, ?_⟩
  · cases long
    · exact main_home_missing sys prog fs "-H" (Or.inl rfl) uid euid env files
    · exact main_home_missing sys prog fs "--home" (Or.inr rfl) uid euid env files
  · cases long
    · exact parse_args_home_last prog fs "-H" v (Or.inl rfl)
    · exact parse_args_home_last prog fs "--home" v (Or.inr rfl)

/-- Witness of C7: `stfu -s -H` run by uid 1000 is the missing-operand error; in
`stfu -s -H -h ls` and `stfu -s -H -h` the operand `-h` is the custom home, not the help
flag. -/
theorem C7_home_operand_witness :
    main sys_ok ["stfu", "-s", "-H"] (State.start 1000 1000 [] [])
      = ({ uid := 1000, euid := 1000, env := [], files := [], cleanup_registered := false,
           trace := [Event.puts sys_ok.t.error_home_arg] },
         Ending.exited 1) ∧
    parse_args ["stfu", "-s", "-H", "-h", "ls"] = Parsed.done 4 true (some "-h") ∧
    parse_args ["stfu", "-s", "-H", "-h"] = Parsed.done 4 true (some "-h") :=
  C7_home_operand sys_ok "stfu" [Flag.escalate false] false 1000 1000 [] [] "-h" [] [] "ls"
    [] (Or.inl ⟨rfl, by decide⟩)

end Stfu
